import Mathlib

set_option maxRecDepth 8192

/-!
Verification of the condition-register / system-register translation core of an
ARM64 dynamic recompiler (Source/Core/Core/PowerPC/JitArm64/JitArm64_SystemRegisters.cpp).

The C++ functions under study are code emitters: each one emits a short fixed
sequence of ARM64 instructions.  We shallowly embed the *semantics of the
emitted sequences* as pure functions on machine words (`Nat` with explicit
`% 2 ^ 64` / `% 2 ^ 32` truncation where the hardware truncates).  Each ARM64
instruction used by the source (UBFX, BFI, logical immediates, CMP/CSET/CSEL,
UMULH, ...) is modelled by a small definition, and the emitted sequences are
their literal composition, following the C++ line by line.
-/

namespace DolphinJit

/-- Signed interpretation of a 64-bit machine word (two's complement). -/
def toInt64 (w : Nat) : Int :=
  if w < 2 ^ 63 then (w : Int) else (w : Int) - 2 ^ 64

/-- Signed interpretation of a 32-bit machine word (two's complement). -/
def toInt32 (w : Nat) : Int :=
  if w < 2 ^ 31 then (w : Int) else (w : Int) - 2 ^ 32

/-- ARM64 UBFX: unsigned bit-field extract of `width` bits starting at `lsb`. -/
def UBFX (x lsb width : Nat) : Nat := (x >>> lsb) % 2 ^ width

/-- ARM64 BFI on a 64-bit register: insert the low `width` bits of `src` into
`dst` at position `lsb`, leaving the other bits of `dst` unchanged. -/
def BFI64 (dst src lsb width : Nat) : Nat :=
  (dst &&& ((2 ^ 64 - 1) ^^^ ((2 ^ width - 1) <<< lsb))) ||| ((src % 2 ^ width) <<< lsb)

/-- ARM64 BFI on a 32-bit register. -/
def BFI32 (dst src lsb width : Nat) : Nat :=
  (dst &&& ((2 ^ 32 - 1) ^^^ ((2 ^ width - 1) <<< lsb))) ||| ((src % 2 ^ width) <<< lsb)

/-- Difference computed by a 64-bit SUBS/CMP instruction (`a - b` modulo `2 ^ 64`). -/
def sub64 (a b : Nat) : Nat := (a + (2 ^ 64 - b % 2 ^ 64)) % 2 ^ 64

/-- ARM N flag after a 64-bit CMP: sign bit of the difference. -/
def flagN64 (a b : Nat) : Bool := (sub64 a b).testBit 63

/-- ARM Z flag after a 64-bit CMP: the difference is zero. -/
def flagZ64 (a b : Nat) : Bool := decide (sub64 a b = 0)

/-- ARM V flag after a 64-bit CMP: the signed subtraction overflowed. -/
def flagV64 (a b : Nat) : Bool :=
  decide (toInt64 (a % 2 ^ 64) - toInt64 (b % 2 ^ 64) ≠ toInt64 (sub64 a b))

/-- ARM condition GT (signed greater than): Z clear and N = V. -/
def condGT64 (a b : Nat) : Bool := !flagZ64 a b && (flagN64 a b == flagV64 a b)

/-- ARM condition LE (signed less than or equal): the negation of GT. -/
def condLE64 (a b : Nat) : Bool := !condGT64 a b

/-- ARM condition NE: Z clear. -/
def condNEQ64 (a b : Nat) : Bool := !flagZ64 a b

/-- Difference computed by a 32-bit SUBS/CMP instruction. -/
def sub32 (a b : Nat) : Nat := (a % 2 ^ 32 + (2 ^ 32 - b % 2 ^ 32)) % 2 ^ 32

/-- ARM N flag after a 32-bit CMP. -/
def flagN32 (a b : Nat) : Bool := (sub32 a b).testBit 31

/-- ARM Z flag after a 32-bit CMP. -/
def flagZ32 (a b : Nat) : Bool := decide (sub32 a b = 0)

/-- ARM C flag after a 32-bit CMP: no borrow occurred. -/
def flagC32 (a b : Nat) : Bool := decide (b % 2 ^ 32 ≤ a % 2 ^ 32)

/-- ARM V flag after a 32-bit CMP. -/
def flagV32 (a b : Nat) : Bool :=
  decide (toInt32 (a % 2 ^ 32) - toInt32 (b % 2 ^ 32) ≠ toInt32 (sub32 a b))

/-- ARM condition LT (signed less than): N differs from V. -/
def condLT32 (a b : Nat) : Bool := flagN32 a b != flagV32 a b

/-- ARM condition GT (signed greater than). -/
def condGT32 (a b : Nat) : Bool := !flagZ32 a b && (flagN32 a b == flagV32 a b)

/-- ARM condition EQ. -/
def condEQ32 (a b : Nat) : Bool := flagZ32 a b

/-- ARM condition VC (overflow clear). -/
def condVC32 (a b : Nat) : Bool := !flagV32 a b

/-- ARM condition VS (overflow set). -/
def condVS32 (a b : Nat) : Bool := flagV32 a b

/-- PowerPC CR bit index of SO within a field (pinned by the source's static
asserts `CR_SO_BIT == 0`, `CR_LT_BIT == 3`). -/
def CR_SO_BIT : Nat := 0

/-- PowerPC CR bit index of EQ within a field. -/
def CR_EQ_BIT : Nat := 1

/-- PowerPC CR bit index of GT within a field. -/
def CR_GT_BIT : Nat := 2

/-- PowerPC CR bit index of LT within a field. -/
def CR_LT_BIT : Nat := 3

/-- Position of the emulated SO bit in the packed word (the source comments:
"check bit 59 set"). -/
def CR_EMU_SO_BIT : Nat := 59

/-- Position of the emulated LT bit in the packed word (the source comments:
"check bit 62 set"; the source also asserts `CR_EMU_LT_BIT - CR_EMU_SO_BIT == 3`). -/
def CR_EMU_LT_BIT : Nat := 62

/-- JitArm64::FixGTBeforeSettingCRFieldBit: `MOVI2R(XA, 1 << 63); CMP(reg, ZR);
CSEL(reg, reg, XA, CC_NEQ)` — replace a zero word by `2 ^ 63` so an unrelated
bit write cannot make the word positive (which would read back as GT set). -/
def FixGTBeforeSettingCRFieldBit (reg : Nat) : Nat :=
  if condNEQ64 reg 0 then reg else 2 ^ 63

/-- JitArm64::GetCRFieldBit: emitted test producing 0 or 1 for one flag of the
packed word `cr`.  SO: `UBFX(out, CR, 59, 1)`; EQ: `CMP(WCR, WZR); CSET(EQ)`;
GT: `CMP(CR, ZR); CSET(GT)`; LT: `UBFX(out, CR, 62, 1)`. -/
def GetCRFieldBit (bit cr : Nat) : Nat :=
  if bit = CR_SO_BIT then UBFX cr CR_EMU_SO_BIT 1
  else if bit = CR_EQ_BIT then (if condEQ32 (cr % 2 ^ 32) 0 then 1 else 0)
  else if bit = CR_GT_BIT then (if condGT64 cr 0 then 1 else 0)
  else if bit = CR_LT_BIT then UBFX cr CR_EMU_LT_BIT 1
  else 0

/-- JitArm64::SetCRFieldBit (register-input form): write the boolean held in
bit 0 of `input` (for EQ, the whole low word of `input`) into flag `bit` of the
packed word `cr`, honouring `negate` and `bits_1_to_31_are_set`, exactly as the
emitted AND/ORR/EOR/BFI sequence does, and finally `ORR(CR, CR, 1 << 32)`. -/
def SetCRFieldBit (bit input : Nat) (negate bits_1_to_31_are_set : Bool) (cr : Nat) : Nat :=
  let cr1 := if bit ≠ CR_GT_BIT then FixGTBeforeSettingCRFieldBit cr else cr
  let cr2 :=
    if bit = CR_SO_BIT then
      let c := BFI64 cr1 input CR_EMU_SO_BIT 1
      if negate then c ^^^ (1 <<< CR_EMU_SO_BIT) else c
    else if bit = CR_EQ_BIT then
      let c := (cr1 &&& 0xFFFFFFFF00000000) ||| input
      if !negate then c ^^^ (if bits_1_to_31_are_set then 0xFFFFFFFF else 1)
      else if bits_1_to_31_are_set then c &&& 0xFFFFFFFF00000001 else c
    else if bit = CR_GT_BIT then
      let c := BFI64 cr1 input 63 1
      if !negate then c ^^^ (1 <<< 63) else c
    else
      let c := BFI64 cr1 input CR_EMU_LT_BIT 1
      if negate then c ^^^ (1 <<< CR_EMU_LT_BIT) else c
  cr2 ||| (1 <<< 32)

/-- JitArm64::ClearCRFieldBit: literal-false write of one flag. -/
def ClearCRFieldBit (bit cr : Nat) : Nat :=
  if bit = CR_SO_BIT then cr &&& ((2 ^ 64 - 1) ^^^ (1 <<< CR_EMU_SO_BIT))
  else if bit = CR_EQ_BIT then (FixGTBeforeSettingCRFieldBit cr) ||| 1
  else if bit = CR_GT_BIT then cr ||| (1 <<< 63)
  else if bit = CR_LT_BIT then cr &&& ((2 ^ 64 - 1) ^^^ (1 <<< CR_EMU_LT_BIT))
  else cr

/-- JitArm64::SetCRFieldBit (literal form, no input register): literal-true
write of one flag, ending with `ORR(XA, XA, 1 << 32)`. -/
def SetCRFieldBitImm (bit cr : Nat) : Nat :=
  let cr1 := if bit ≠ CR_GT_BIT then FixGTBeforeSettingCRFieldBit cr else cr
  let cr2 :=
    if bit = CR_SO_BIT then cr1 ||| (1 <<< CR_EMU_SO_BIT)
    else if bit = CR_EQ_BIT then cr1 &&& 0xFFFFFFFF00000000
    else if bit = CR_GT_BIT then cr1 &&& ((2 ^ 64 - 1) ^^^ (1 <<< 63))
    else cr1 ||| (1 <<< CR_EMU_LT_BIT)
  cr2 ||| (1 <<< 32)

/-- JitArm64::JumpIfCRFieldBit: whether the emitted branch (TBNZ/TBZ, CBZ/CBNZ,
or CMP + B.GT/B.LE) is taken for the packed word `cr`. -/
def JumpIfCRFieldBit (bit : Nat) (jump_if_set : Bool) (cr : Nat) : Bool :=
  if bit = CR_SO_BIT then
    (if jump_if_set then cr.testBit CR_EMU_SO_BIT else !cr.testBit CR_EMU_SO_BIT)
  else if bit = CR_EQ_BIT then
    (if jump_if_set then decide (cr % 2 ^ 32 = 0) else decide (cr % 2 ^ 32 ≠ 0))
  else if bit = CR_GT_BIT then
    (if jump_if_set then condGT64 cr 0 else condLE64 cr 0)
  else if bit = CR_LT_BIT then
    (if jump_if_set then cr.testBit CR_EMU_LT_BIT else !cr.testBit CR_EMU_LT_BIT)
  else false

/-- Specification-level SO flag of a packed word: bit 59. -/
def soFlag (w : Nat) : Bool := w.testBit 59

/-- Specification-level EQ flag of a packed word: the low 32 bits are zero. -/
def eqFlag (w : Nat) : Bool := decide (w % 2 ^ 32 = 0)

/-- Specification-level GT flag of a packed word: the signed 64-bit value is
strictly positive. -/
def gtFlag (w : Nat) : Bool := decide (0 < toInt64 w)

/-- Specification-level LT flag of a packed word: bit 62. -/
def ltFlag (w : Nat) : Bool := w.testBit 62

/-- Specification-level flag selector, indexed like the source's CR bit indices. -/
def crFlag (bit w : Nat) : Bool :=
  if bit = CR_SO_BIT then soFlag w
  else if bit = CR_EQ_BIT then eqFlag w
  else if bit = CR_GT_BIT then gtFlag w
  else ltFlag w

/-- Field index addressed by a 5-bit CR bit number (`crb >> 2` in the source). -/
def fieldOf (crb : Nat) : Nat := crb >>> 2

/-- Flag index addressed by a 5-bit CR bit number (`3 - (crb & 3)` in the source). -/
def bitOf (crb : Nat) : Nat := 3 - (crb % 4)

/-- Architectural truth table of the eight two-operand condition instructions,
keyed by their sub-opcode. -/
def crTruthTable (subop10 : Nat) (a b : Bool) : Bool :=
  if subop10 = 257 then a && b
  else if subop10 = 449 then a || b
  else if subop10 = 193 then a ^^ b
  else if subop10 = 225 then !(a && b)
  else if subop10 = 33 then !(a || b)
  else if subop10 = 129 then a && !b
  else if subop10 = 417 then a || !b
  else !(a ^^ b)

/-- JitArm64::crXXX: state transformer on the eight packed CR field words.
Mirrors the source exactly: the same-bit-index special cases (crclr, crset,
pass-through, inverted pass-through) never read the second operand; the general
path reads both flags, combines them (AND/BIC/EOR/EON/ORR/ORN, the last two
32-bit forms setting the `bits_1_to_31_are_set` hint), and writes the result
through SetCRFieldBit with the computed `negate_result`. -/
def crXXX (subop10 crba crbb crbd : Nat) (st : Nat → Nat) : Nat → Nat :=
  let fd := fieldOf crbd
  let bd := bitOf crbd
  if crba = crbb ∧ (subop10 = 129 ∨ subop10 = 193) then
    fun f => if f = fd then ClearCRFieldBit bd (st fd) else st f
  else if crba = crbb ∧ (subop10 = 289 ∨ subop10 = 417) then
    fun f => if f = fd then SetCRFieldBitImm bd (st fd) else st f
  else if crba = crbb ∧ (subop10 = 257 ∨ subop10 = 449) then
    let xa := GetCRFieldBit (bitOf crba) (st (fieldOf crba))
    fun f => if f = fd then SetCRFieldBit bd xa false false (st fd) else st f
  else if crba = crbb ∧ (subop10 = 33 ∨ subop10 = 225) then
    let xa := GetCRFieldBit (bitOf crba) (st (fieldOf crba))
    fun f => if f = fd then SetCRFieldBit bd xa true false (st fd) else st f
  else
    let xa := GetCRFieldBit (bitOf crba) (st (fieldOf crba))
    let xb := GetCRFieldBit (bitOf crbb) (st (fieldOf crbb))
    let negate_result : Bool :=
      decide (subop10 = 33) || decide (subop10 = 225) ||
        (decide (subop10 = 289) && (decide (bd = CR_EQ_BIT) || decide (bd = CR_GT_BIT)))
    let combined : Nat :=
      if subop10 = 225 ∨ subop10 = 257 then xa &&& xb
      else if subop10 = 129 then xa &&& ((2 ^ 64 - 1) ^^^ xb)
      else if subop10 = 193 then xa ^^^ xb
      else if subop10 = 289 then
        if negate_result then xa ^^^ xb
        else (xa % 2 ^ 32) ^^^ ((2 ^ 32 - 1) ^^^ (xb % 2 ^ 32))
      else if subop10 = 33 ∨ subop10 = 449 then xa ||| xb
      else (xa % 2 ^ 32) ||| ((2 ^ 32 - 1) ^^^ (xb % 2 ^ 32))
    let hint : Bool :=
      decide (subop10 = 417) ||
        (decide (subop10 = 289) && !(decide (bd = CR_EQ_BIT) || decide (bd = CR_GT_BIT)))
    fun f => if f = fd then SetCRFieldBit bd combined negate_result hint (st fd) else st f

/-- Modelled from the spec: FPSCR FX bit (position 31); the numeric position is
declared in a header outside the provided sources. -/
def FPSCR_FX : Nat := 2 ^ 31

/-- Modelled from the spec: FPSCR FEX summary bit (position 30). -/
def FPSCR_FEX : Nat := 2 ^ 30

/-- Modelled from the spec: FPSCR VX summary bit (position 29). -/
def FPSCR_VX : Nat := 2 ^ 29

/-- Modelled from the spec: mask of all invalid-operation exception bits
(VXSNAN..VXVC at bits 24..19 and VXSOFT, VXSQRT, VXCVI at bits 10..8); the mask
is declared in a header outside the provided sources. -/
def FPSCR_VX_ANY : Nat := 0x01F80700

/-- Modelled from the spec: mask of all exception bits (OX, UX, ZX, XX at bits
28..25 together with FPSCR_VX_ANY). -/
def FPSCR_ANY_X : Nat := 0x1FF80700

/-- Modelled from the spec: mask of the five exception-enable bits VE..XE at
bits 7..3, aligned with the exception bits by a right shift of 22. -/
def FPSCR_ANY_E : Nat := 0xF8

/-- JitArm64::UpdateFPExceptionSummary: recompute the two derived FPSCR bits.
Emitted sequence: `MOVI2R(WA, VX_ANY); TST(WA, fpscr); CSET(NEQ); BFI(fpscr, WA,
29, 1)` then `AND(WA, fpscr, ANY_E); TST(WA, fpscr LSR 22); CSET(NEQ);
BFI(fpscr, WA, 30, 1)` — note the FEX step reads the VX-updated word. -/
def UpdateFPExceptionSummary (fpscr : Nat) : Nat :=
  let vx : Nat := if FPSCR_VX_ANY &&& fpscr ≠ 0 then 1 else 0
  let f1 := BFI32 fpscr vx 29 1
  let wa := f1 &&& FPSCR_ANY_E
  let fex : Nat := if wa &&& (f1 >>> 22) ≠ 0 then 1 else 0
  BFI32 f1 fex 30 1

/-- JitArm64::mtfsb1x acting on the FPSCR word, for bit index `crbd`:
`mask = 0x80000000 >> crbd`; FEX/VX writes are dropped; for exception bits the
FX bit is conditionally ORed in (`TST(WA, mask); ORR(WB, WA, 1 << 31);
CSEL(WA, WA, WB, NEQ)`); then the bit itself is ORed in, and the summary is
recomputed when an exception or enable bit changed. -/
def mtfsb1x (crbd fpscr : Nat) : Nat :=
  let mask := 0x80000000 >>> crbd
  if mask = FPSCR_FEX ∨ mask = FPSCR_VX then fpscr
  else
    let w1 := if mask &&& FPSCR_ANY_X ≠ 0 then
        (if fpscr &&& mask ≠ 0 then fpscr else fpscr ||| (1 <<< 31))
      else fpscr
    let w2 := w1 ||| mask
    if mask &&& (FPSCR_ANY_X ||| FPSCR_ANY_E) ≠ 0 then UpdateFPExceptionSummary w2 else w2

/-- Sign extension of a 16-bit immediate to 32 bits (`(s32)(s16)inst.SIMM_16`). -/
def sext16to32 (x : Nat) : Nat :=
  if x % 2 ^ 16 < 2 ^ 15 then x % 2 ^ 16 else x % 2 ^ 16 + 0xFFFF0000

/-- The condition evaluated for trap-mask bit `i` by JitArm64::twx: the source's
array is `{CC_LT, CC_GT, CC_EQ, CC_VC, CC_VS}`, i.e. indices 3 and 4 test the
ARM overflow flag, not an unsigned comparison. -/
def twxCondition (i a b : Nat) : Bool :=
  if i = 0 then condLT32 a b
  else if i = 1 then condGT32 a b
  else if i = 2 then condEQ32 a b
  else if i = 3 then condVC32 a b
  else condVS32 a b

/-- JitArm64::twx (register form): whether the emitted code takes the trap
side-exit, i.e. whether any branch `B(conditions[i])` fires for a set TO bit
after the single `CMP(gpr.R(a), gpr.R(b))`. -/
def twxTrapTaken (to_field a b : Nat) : Bool :=
  (List.range 5).any fun i => to_field.testBit i && twxCondition i a b

/-- JitArm64::twx (immediate form twi): the comparison is against the
sign-extended 16-bit immediate. -/
def twiTrapTaken (to_field a simm : Nat) : Bool :=
  twxTrapTaken to_field a (sext16to32 simm)

/-- Modelled from the spec: the five trap relations in the order the spec lists
them — signed-less, signed-greater, equal, unsigned-less, unsigned-greater —
on the 32-bit operands. -/
def trapRelationSpec (i a b : Nat) : Bool :=
  if i = 0 then decide (toInt32 (a % 2 ^ 32) < toInt32 (b % 2 ^ 32))
  else if i = 1 then decide (toInt32 (b % 2 ^ 32) < toInt32 (a % 2 ^ 32))
  else if i = 2 then decide (a % 2 ^ 32 = b % 2 ^ 32)
  else if i = 3 then decide (a % 2 ^ 32 < b % 2 ^ 32)
  else decide (b % 2 ^ 32 < a % 2 ^ 32)

/-- Modelled from the spec: the trap exit should fire iff some TO-selected
relation holds. -/
def twxTrapSpec (to_field a b : Nat) : Bool :=
  (List.range 5).any fun i => to_field.testBit i && trapRelationSpec i a b

/-- ARM64 UMULH: the high 64 bits of the 128-bit product. -/
def UMULH (a b : Nat) : Nat := (a % 2 ^ 64) * (b % 2 ^ 64) / 2 ^ 64

/-- The reciprocal constant materialised by `ORR(XB, ZR, 0xAAAAAAAAAAAAAAAA);
ADD(XB, XB, 1)` in the timebase fast path. -/
def tbReciprocal : Nat := (0xAAAAAAAAAAAAAAAA + 1) % 2 ^ 64

/-- The emitted division-by-12 sequence of the timebase fast path:
`UMULH(Xresult, Xresult, XB)` followed by the `LSR 3` folded into the final ADD. -/
def tbDiv12 (a : Nat) : Nat := UMULH a tbReciprocal >>> 3

/-- Special-purpose register index of the timebase low half (declared outside
the provided sources; only `SPR_TL ≠ SPR_TU` matters here). -/
def SPR_TL : Nat := 268

/-- Special-purpose register index of the timebase high half. -/
def SPR_TU : Nat := 269

/-- SPR index decoding `(SPRU << 5) | (SPRL & 0x1F)` used by mfspr/mftb. -/
def sprIndex (spru sprl : Nat) : Nat := (spru <<< 5) ||| (sprl % 32)

/-- The half of the 64-bit counter delivered for one timebase SPR index:
`MOV(Wd, Wresult)` for SPR_TL, `LSR(Xd, Xresult, 32)` for SPR_TU. -/
def tbHalf (idx counter : Nat) : Nat :=
  if idx = SPR_TL then counter % 2 ^ 32 else counter >>> 32

/-- The merge test of the timebase read fusion in JitArm64::mfspr: the next
instruction must be mergeable, be encoded as mftb (OPCD 31, SUBOP10 371), name
SPR_TU or SPR_TL, and target a different destination register. -/
def tbMergeFires (canMerge : Bool) (d nextOpcd nextSubop10 nextSpru nextSprl nextRd : Nat) : Bool :=
  canMerge && decide (nextOpcd = 31) && decide (nextSubop10 = 371) &&
    (decide (sprIndex nextSpru nextSprl = SPR_TU) || decide (sprIndex nextSpru nextSprl = SPR_TL)) &&
    decide (nextRd ≠ d)

/-- The other half's SPR index. -/
def pairedTBIndex (idx : Nat) : Nat := if idx = SPR_TL then SPR_TU else SPR_TL

/-- Modelled from the spec: the fusion condition as the spec states it — the
immediately following instruction reads the paired (other) half of the counter
into a different destination register and is not itself merged further. -/
def tbMergeFiresSpec (canMerge : Bool) (iIndex d nextOpcd nextSubop10 nextSpru nextSprl nextRd : Nat) : Bool :=
  canMerge && decide (nextOpcd = 31) && decide (nextSubop10 = 371) &&
    decide (sprIndex nextSpru nextSprl = pairedTBIndex iIndex) && decide (nextRd ≠ d)

/-- Register assignments and skip count produced by the timebase read (merged
or not): the list of `(destination, value)` pairs written and how many
following instructions are suppressed. -/
def mfsprTBEmit (iIndex d : Nat) (canMerge : Bool)
    (nextOpcd nextSubop10 nextSpru nextSprl nextRd : Nat) (counter : Nat) :
    List (Nat × Nat) × Nat :=
  if tbMergeFires canMerge d nextOpcd nextSubop10 nextSpru nextSprl nextRd then
    ([(d, tbHalf iIndex counter), (nextRd, tbHalf (sprIndex nextSpru nextSprl) counter)], 1)
  else
    ([(d, tbHalf iIndex counter)], 0)

theorem gtFlag_eq {w : Nat} (h : w < 2 ^ 64) :
    gtFlag w = (decide (w ≠ 0) && !w.testBit 63) := by
  rw [Bool.eq_iff_iff]
  unfold gtFlag toInt64
  rw [Nat.testBit_to_div_mod]
  by_cases h1 : w < 2 ^ 63 <;> simp [h1] <;> omega

theorem sub64_zero {a : Nat} (h : a < 2 ^ 64) : sub64 a 0 = a := by
  unfold sub64; omega

theorem flagZ64_zero {a : Nat} (h : a < 2 ^ 64) : flagZ64 a 0 = decide (a = 0) := by
  unfold flagZ64; rw [sub64_zero h]

theorem FixGT_eq {cr : Nat} (h : cr < 2 ^ 64) :
    FixGTBeforeSettingCRFieldBit cr = if cr = 0 then 2 ^ 63 else cr := by
  unfold FixGTBeforeSettingCRFieldBit condNEQ64
  rw [flagZ64_zero h]
  by_cases h0 : cr = 0 <;> simp [h0]

theorem FixGT_lt {cr : Nat} (h : cr < 2 ^ 64) : FixGTBeforeSettingCRFieldBit cr < 2 ^ 64 := by
  rw [FixGT_eq h]
  by_cases h0 : cr = 0 <;> simp [h0] <;> omega

theorem shiftLeft_one_lt {src lsb : Nat} (h : lsb ≤ 63) : (src % 2 ^ 1) <<< lsb < 2 ^ 64 := by
  have h1 : src % 2 ^ 1 < 2 ^ 1 := Nat.mod_lt _ (by norm_num)
  exact lt_of_lt_of_le (Nat.shiftLeft_lt h1)
    (Nat.pow_le_pow_right (by norm_num) (by omega))

theorem BFI64_lt1 (dst src lsb : Nat) (h : lsb ≤ 63) : BFI64 dst src lsb 1 < 2 ^ 64 := by
  unfold BFI64
  apply Nat.or_lt_two_pow _ (shiftLeft_one_lt h)
  refine lt_of_le_of_lt Nat.and_le_right (Nat.xor_lt_two_pow (by norm_num) ?_)
  exact lt_of_lt_of_le (@Nat.shiftLeft_lt (2 ^ 1 - 1) 1 lsb (by norm_num))
    (Nat.pow_le_pow_right (by norm_num) (by omega))

theorem SetCRFieldBit_lt (bit i : Nat) (neg hint : Bool) (cr : Nat)
    (h : cr < 2 ^ 64) (hi : i < 2 ^ 64) :
    SetCRFieldBit bit i neg hint cr < 2 ^ 64 := by
  have hfix : FixGTBeforeSettingCRFieldBit cr < 2 ^ 64 := FixGT_lt h
  unfold SetCRFieldBit
  apply Nat.or_lt_two_pow _ (by decide)
  split_ifs <;>
    first
      | exact BFI64_lt1 _ _ _ (by decide)
      | exact Nat.xor_lt_two_pow (BFI64_lt1 _ _ _ (by decide)) (by decide)
      | exact Nat.xor_lt_two_pow
          (Nat.or_lt_two_pow (lt_of_le_of_lt Nat.and_le_right (by decide)) hi) (by decide)
      | exact Nat.or_lt_two_pow (lt_of_le_of_lt Nat.and_le_right (by decide)) hi
      | exact lt_of_le_of_lt Nat.and_le_right (by decide)

theorem ClearCRFieldBit_lt (bit : Nat) (cr : Nat) (h : cr < 2 ^ 64) :
    ClearCRFieldBit bit cr < 2 ^ 64 := by
  have hfix : FixGTBeforeSettingCRFieldBit cr < 2 ^ 64 := FixGT_lt h
  rcases bit with _|_|_|_|n
  · exact lt_of_le_of_lt Nat.and_le_right (by decide)
  · exact Nat.or_lt_two_pow hfix (by decide)
  · exact Nat.or_lt_two_pow h (by decide)
  · exact lt_of_le_of_lt Nat.and_le_right (by decide)
  · exact h

theorem SetCRFieldBitImm_lt (bit : Nat) (cr : Nat) (h : cr < 2 ^ 64) :
    SetCRFieldBitImm bit cr < 2 ^ 64 := by
  have hfix : FixGTBeforeSettingCRFieldBit cr < 2 ^ 64 := FixGT_lt h
  have hne2 : ¬(0:Nat) = 2 := by decide
  have hne12 : ¬(1:Nat) = 2 := by decide
  have hne32 : ¬(3:Nat) = 2 := by decide
  have c32 : (1 <<< 32 : Nat) < 2 ^ 64 := by decide
  have c59 : (1 <<< 59 : Nat) < 2 ^ 64 := by decide
  have c62 : (1 <<< 62 : Nat) < 2 ^ 64 := by decide
  have cHi : (0xFFFFFFFF00000000 : Nat) < 2 ^ 64 := by decide
  have cM63 : ((2 ^ 64 - 1) ^^^ (1 <<< 63) : Nat) < 2 ^ 64 := by decide
  rcases bit with _|_|_|_|n
  · simp only [SetCRFieldBitImm, CR_SO_BIT, CR_EQ_BIT, CR_GT_BIT, CR_LT_BIT,
      CR_EMU_SO_BIT, CR_EMU_LT_BIT, reduceIte, ne_eq, hne2, not_false_eq_true, if_true]
    exact Nat.or_lt_two_pow (Nat.or_lt_two_pow hfix c59) c32
  · simp only [SetCRFieldBitImm, CR_SO_BIT, CR_EQ_BIT, CR_GT_BIT, CR_LT_BIT,
      CR_EMU_SO_BIT, CR_EMU_LT_BIT, reduceIte, ne_eq, hne12, not_false_eq_true, if_true]
    exact Nat.or_lt_two_pow (lt_of_le_of_lt Nat.and_le_right cHi) c32
  · simp only [SetCRFieldBitImm, CR_SO_BIT, CR_EQ_BIT, CR_GT_BIT, CR_LT_BIT,
      CR_EMU_SO_BIT, CR_EMU_LT_BIT, reduceIte, ne_eq, not_true_eq_false, if_false]
    exact Nat.or_lt_two_pow (lt_of_le_of_lt Nat.and_le_right cM63) c32
  · simp only [SetCRFieldBitImm, CR_SO_BIT, CR_EQ_BIT, CR_GT_BIT, CR_LT_BIT,
      CR_EMU_SO_BIT, CR_EMU_LT_BIT, reduceIte, ne_eq, hne32, not_false_eq_true, if_true]
    exact Nat.or_lt_two_pow (Nat.or_lt_two_pow hfix c62) c32
  · have e0 : ¬(n + 4) = 0 := by omega
    have e1 : ¬(n + 4) = 1 := by omega
    have e2 : ¬(n + 4) = 2 := by omega
    simp only [SetCRFieldBitImm, CR_SO_BIT, CR_EQ_BIT, CR_GT_BIT, CR_LT_BIT,
      CR_EMU_SO_BIT, CR_EMU_LT_BIT, reduceIte, ne_eq, e0, e1, e2, not_false_eq_true,
      if_true, if_false]
    exact Nat.or_lt_two_pow (Nat.or_lt_two_pow hfix c62) c32
theorem mod_two_pow_lor (x y n : Nat) : (x ||| y) % 2 ^ n = (x % 2 ^ n) ||| (y % 2 ^ n) := by
  apply Nat.eq_of_testBit_eq
  intro i
  by_cases h : i < n <;>
    simp [Nat.testBit_mod_two_pow, Nat.testBit_lor, h]

theorem mod_two_pow_land (x y n : Nat) : (x &&& y) % 2 ^ n = (x % 2 ^ n) &&& (y % 2 ^ n) := by
  apply Nat.eq_of_testBit_eq
  intro i
  by_cases h : i < n <;>
    simp [Nat.testBit_mod_two_pow, Nat.testBit_land, h]

theorem mod_two_pow_xor (x y n : Nat) : (x ^^^ y) % 2 ^ n = (x % 2 ^ n) ^^^ (y % 2 ^ n) := by
  apply Nat.eq_of_testBit_eq
  intro i
  by_cases h : i < n <;>
    simp [Nat.testBit_mod_two_pow, Nat.testBit_xor, h]

theorem soFlag_set (i : Nat) (neg hint : Bool) (cr : Nat) (h : cr < 2 ^ 64) :
    soFlag (SetCRFieldBit CR_SO_BIT i neg hint cr) = (i.testBit 0 ^^ neg) := by
  rw [Bool.eq_iff_iff]
  unfold SetCRFieldBit soFlag
  rw [FixGT_eq h]
  by_cases h0 : cr = 0 <;> cases neg <;>
    simp [h0, CR_SO_BIT, CR_EQ_BIT, CR_GT_BIT, CR_LT_BIT, CR_EMU_SO_BIT, CR_EMU_LT_BIT,
      BFI64, Nat.testBit_lor, Nat.testBit_land, Nat.testBit_xor, Nat.testBit_shiftLeft] <;>
    simp [Nat.testBit_to_div_mod] <;> omega

theorem ltFlag_set (i : Nat) (neg hint : Bool) (cr : Nat) (h : cr < 2 ^ 64) :
    ltFlag (SetCRFieldBit CR_LT_BIT i neg hint cr) = (i.testBit 0 ^^ neg) := by
  rw [Bool.eq_iff_iff]
  unfold SetCRFieldBit ltFlag
  rw [FixGT_eq h]
  by_cases h0 : cr = 0 <;> cases neg <;>
    simp [h0, CR_SO_BIT, CR_EQ_BIT, CR_GT_BIT, CR_LT_BIT, CR_EMU_SO_BIT, CR_EMU_LT_BIT,
      BFI64, Nat.testBit_lor, Nat.testBit_land, Nat.testBit_xor, Nat.testBit_shiftLeft] <;>
    simp [Nat.testBit_to_div_mod] <;> omega

theorem gtFlag_set (i : Nat) (neg hint : Bool) (cr : Nat) (h : cr < 2 ^ 64) (hi : i < 2 ^ 64) :
    gtFlag (SetCRFieldBit CR_GT_BIT i neg hint cr) = (i.testBit 0 ^^ neg) := by
  have hlt := SetCRFieldBit_lt CR_GT_BIT i neg hint cr h hi
  rw [gtFlag_eq hlt]
  have h32 : (SetCRFieldBit CR_GT_BIT i neg hint cr).testBit 32 = true := by
    cases neg <;>
      simp [SetCRFieldBit, CR_SO_BIT, CR_EQ_BIT, CR_GT_BIT, CR_LT_BIT, CR_EMU_SO_BIT,
        CR_EMU_LT_BIT, BFI64, Nat.testBit_lor, Nat.testBit_shiftLeft] <;>
      simp [Nat.testBit_to_div_mod]
  have hne : SetCRFieldBit CR_GT_BIT i neg hint cr ≠ 0 := by
    intro h0
    rw [h0, Nat.zero_testBit] at h32
    exact Bool.false_ne_true h32
  have h63 : (SetCRFieldBit CR_GT_BIT i neg hint cr).testBit 63 = !(i.testBit 0 ^^ neg) := by
    rw [Bool.eq_iff_iff]
    cases neg <;>
      simp [SetCRFieldBit, CR_SO_BIT, CR_EQ_BIT, CR_GT_BIT, CR_LT_BIT, CR_EMU_SO_BIT,
        CR_EMU_LT_BIT, BFI64, Nat.testBit_lor, Nat.testBit_land, Nat.testBit_xor,
        Nat.testBit_shiftLeft] <;>
      simp [Nat.testBit_to_div_mod] <;> omega
  rw [h63]
  simp [hne]

theorem mod32_lor (x y : Nat) :
    (x ||| y) % 4294967296 = (x % 4294967296) ||| (y % 4294967296) := by
  have e := mod_two_pow_lor x y 32
  norm_num at e
  exact e

theorem mod32_land (x y : Nat) :
    (x &&& y) % 4294967296 = (x % 4294967296) &&& (y % 4294967296) := by
  have e := mod_two_pow_land x y 32
  norm_num at e
  exact e

theorem mod32_xor (x y : Nat) :
    (x ^^^ y) % 4294967296 = (x % 4294967296) ^^^ (y % 4294967296) := by
  have e := mod_two_pow_xor x y 32
  norm_num at e
  exact e

theorem eqFlag_set_plain (v neg : Bool) (cr : Nat) (h : cr < 2 ^ 64) :
    eqFlag (SetCRFieldBit CR_EQ_BIT (if v then 1 else 0) neg false cr) = (v ^^ neg) := by
  unfold SetCRFieldBit eqFlag
  rw [FixGT_eq h]
  by_cases h0 : cr = 0 <;> cases v <;> cases neg <;>
    simp [h0, CR_SO_BIT, CR_EQ_BIT, CR_GT_BIT, CR_LT_BIT,
      mod32_lor, mod32_land, mod32_xor, Nat.and_zero, Nat.or_zero,
      Nat.zero_or, Nat.xor_zero, Nat.zero_xor]

theorem eqFlag_set_hint (v neg : Bool) (cr : Nat) (h : cr < 2 ^ 64) :
    eqFlag (SetCRFieldBit CR_EQ_BIT (0xFFFFFFFE ||| (if v then 1 else 0)) neg true cr)
      = (v ^^ neg) := by
  unfold SetCRFieldBit eqFlag
  rw [FixGT_eq h]
  by_cases h0 : cr = 0 <;> cases v <;> cases neg <;>
    simp [h0, CR_SO_BIT, CR_EQ_BIT, CR_GT_BIT, CR_LT_BIT,
      mod32_lor, mod32_land, mod32_xor, Nat.and_zero, Nat.or_zero,
      Nat.zero_or, Nat.xor_zero, Nat.zero_xor]

theorem condGT64_zero {a : Nat} (h : a < 2 ^ 64) : condGT64 a 0 = gtFlag a := by
  unfold condGT64 flagN64 flagV64
  rw [flagZ64_zero h, sub64_zero h, gtFlag_eq h, Nat.mod_eq_of_lt h]
  have hv : toInt64 a - toInt64 (0 % 2 ^ 64) = toInt64 a := by simp [toInt64]
  rw [hv]
  cases hb : a.testBit 63 <;> simp [hb]


theorem condLE64_zero {a : Nat} (h : a < 2 ^ 64) : condLE64 a 0 = !gtFlag a := by
  unfold condLE64
  rw [condGT64_zero h]


theorem sub32_self_zero (a : Nat) : sub32 (a % 2 ^ 32) 0 = a % 2 ^ 32 := by
  unfold sub32; omega


theorem condEQ32_zero (a : Nat) : condEQ32 (a % 2 ^ 32) 0 = decide (a % 2 ^ 32 = 0) := by
  unfold condEQ32 flagZ32
  rw [sub32_self_zero]


theorem UBFX_one (x lsb : Nat) : UBFX x lsb 1 = if x.testBit lsb then 1 else 0 := by
  unfold UBFX
  rw [Nat.shiftRight_eq_div_pow, Nat.testBit_to_div_mod]
  by_cases h : x / 2 ^ lsb % 2 = 1 <;> simp [h] <;> omega


theorem testBit_one_zero : Nat.testBit 1 0 = true := by decide

theorem getCRFieldBit_eq (bit cr : Nat) (hbit : bit < 4) (hcr : cr < 2 ^ 64) :
    GetCRFieldBit bit cr = if crFlag bit cr then 1 else 0 := by
  rcases bit with _|_|_|_|n
  · have p0 : (0 : Nat) = CR_SO_BIT := by decide
    unfold GetCRFieldBit crFlag
    rw [if_pos p0, if_pos p0, UBFX_one]
    rfl
  · have n0 : ¬(0 + 1 = CR_SO_BIT) := by decide
    have p1 : 0 + 1 = CR_EQ_BIT := by decide
    unfold GetCRFieldBit crFlag
    rw [if_neg n0, if_pos p1, if_neg n0, if_pos p1, condEQ32_zero]
    unfold eqFlag
    by_cases h : cr % 2 ^ 32 = 0 <;> simp [h]
  · have n0 : ¬(0 + 1 + 1 = CR_SO_BIT) := by decide
    have n1 : ¬(0 + 1 + 1 = CR_EQ_BIT) := by decide
    have p2 : 0 + 1 + 1 = CR_GT_BIT := by decide
    unfold GetCRFieldBit crFlag
    rw [if_neg n0, if_neg n1, if_pos p2, if_neg n0, if_neg n1, if_pos p2, condGT64_zero hcr]
  · have n0 : ¬(0 + 1 + 1 + 1 = CR_SO_BIT) := by decide
    have n1 : ¬(0 + 1 + 1 + 1 = CR_EQ_BIT) := by decide
    have n2 : ¬(0 + 1 + 1 + 1 = CR_GT_BIT) := by decide
    have p3 : 0 + 1 + 1 + 1 = CR_LT_BIT := by decide
    unfold GetCRFieldBit crFlag
    rw [if_neg n0, if_neg n1, if_neg n2, if_pos p3, if_neg n0, if_neg n1, if_neg n2, UBFX_one]
    rfl
  · omega

theorem jumpIfCRFieldBit_eq (bit : Nat) (j : Bool) (cr : Nat) (hbit : bit < 4)
    (hcr : cr < 2 ^ 64) :
    JumpIfCRFieldBit bit j cr = (j == crFlag bit cr) := by
  rcases bit with _|_|_|_|n
  · have p0 : (0 : Nat) = CR_SO_BIT := by decide
    unfold JumpIfCRFieldBit crFlag
    rw [if_pos p0, if_pos p0]
    cases j <;> cases h : soFlag cr <;>
      simp only [soFlag, CR_EMU_SO_BIT] at h <;> simp [h, CR_EMU_SO_BIT]
  · have n0 : ¬(0 + 1 = CR_SO_BIT) := by decide
    have p1 : 0 + 1 = CR_EQ_BIT := by decide
    unfold JumpIfCRFieldBit crFlag
    rw [if_neg n0, if_pos p1, if_neg n0, if_pos p1]
    cases j <;> by_cases h : cr % 2 ^ 32 = 0 <;> simp [h, eqFlag]
  · have n0 : ¬(0 + 1 + 1 = CR_SO_BIT) := by decide
    have n1 : ¬(0 + 1 + 1 = CR_EQ_BIT) := by decide
    have p2 : 0 + 1 + 1 = CR_GT_BIT := by decide
    unfold JumpIfCRFieldBit crFlag
    rw [if_neg n0, if_neg n1, if_pos p2, if_neg n0, if_neg n1, if_pos p2]
    have hg := condGT64_zero hcr
    have hl := condLE64_zero hcr
    cases j <;> cases hgt : gtFlag cr <;> rw [hgt] at hg hl <;> simp [hg, hl]
  · have n0 : ¬(0 + 1 + 1 + 1 = CR_SO_BIT) := by decide
    have n1 : ¬(0 + 1 + 1 + 1 = CR_EQ_BIT) := by decide
    have n2 : ¬(0 + 1 + 1 + 1 = CR_GT_BIT) := by decide
    have p3 : 0 + 1 + 1 + 1 = CR_LT_BIT := by decide
    unfold JumpIfCRFieldBit crFlag
    rw [if_neg n0, if_neg n1, if_neg n2, if_pos p3, if_neg n0, if_neg n1, if_neg n2]
    cases j <;> cases h : ltFlag cr <;>
      simp only [ltFlag, CR_EMU_LT_BIT] at h <;> simp [h, CR_EMU_LT_BIT]
  · omega


/-- C4: for every packed word, GetCRFieldBit produces SO = bit 59, LT = bit 62,
EQ = (low 32 bits zero), GT = (signed 64-bit value strictly positive), and
JumpIfCRFieldBit branches on exactly the same four predicates (negated when
jump_if_set is false). -/
theorem C4_flag_tests (cr : Nat) (hcr : cr < 2 ^ 64) :
    GetCRFieldBit CR_SO_BIT cr = (if cr.testBit 59 then 1 else 0) ∧
    GetCRFieldBit CR_EQ_BIT cr = (if cr % 2 ^ 32 = 0 then 1 else 0) ∧
    GetCRFieldBit CR_GT_BIT cr = (if 0 < toInt64 cr then 1 else 0) ∧
    GetCRFieldBit CR_LT_BIT cr = (if cr.testBit 62 then 1 else 0) ∧
    (∀ j : Bool, ∀ bit : Nat, bit < 4 →
      JumpIfCRFieldBit bit j cr = (j == crFlag bit cr)) := by
  refine ⟨?_, ?_, ?_, ?_, fun j bit hbit => jumpIfCRFieldBit_eq bit j cr hbit hcr⟩
  · rw [getCRFieldBit_eq CR_SO_BIT cr (by decide) hcr]
    unfold crFlag
    rw [if_pos (by decide : CR_SO_BIT = CR_SO_BIT)]
    simp [soFlag, CR_EMU_SO_BIT]
  · rw [getCRFieldBit_eq CR_EQ_BIT cr (by decide) hcr]
    unfold crFlag
    rw [if_neg (by decide : ¬(CR_EQ_BIT = CR_SO_BIT)), if_pos (by decide : CR_EQ_BIT = CR_EQ_BIT)]
    unfold eqFlag
    by_cases h : cr % 2 ^ 32 = 0 <;> simp [h]
  · rw [getCRFieldBit_eq CR_GT_BIT cr (by decide) hcr]
    unfold crFlag
    rw [if_neg (by decide : ¬(CR_GT_BIT = CR_SO_BIT)),
      if_neg (by decide : ¬(CR_GT_BIT = CR_EQ_BIT)),
      if_pos (by decide : CR_GT_BIT = CR_GT_BIT)]
    unfold gtFlag
    by_cases h : 0 < toInt64 cr <;> simp [h]
  · rw [getCRFieldBit_eq CR_LT_BIT cr (by decide) hcr]
    unfold crFlag
    rw [if_neg (by decide : ¬(CR_LT_BIT = CR_SO_BIT)),
      if_neg (by decide : ¬(CR_LT_BIT = CR_EQ_BIT)),
      if_neg (by decide : ¬(CR_LT_BIT = CR_GT_BIT))]
    simp [ltFlag, CR_EMU_LT_BIT]

/-- C4 witness: the packed word with only bit 62 set reads back LT set, SO
clear, EQ set (low half zero) and GT set (positive signed value). -/
theorem C4_flag_tests_witness :
    (2 : Nat) ^ 62 < 2 ^ 64 ∧
    GetCRFieldBit CR_SO_BIT (2 ^ 62) = 0 ∧
    GetCRFieldBit CR_LT_BIT (2 ^ 62) = 1 ∧
    GetCRFieldBit CR_EQ_BIT (2 ^ 62) = 1 ∧
    GetCRFieldBit CR_GT_BIT (2 ^ 62) = 1 := by
  obtain ⟨h1, h2, h3, h4, _⟩ := C4_flag_tests (2 ^ 62) (by norm_num)
  refine ⟨by norm_num, ?_, ?_, ?_, ?_⟩
  · rw [h1]; decide
  · rw [h4]; decide
  · rw [h2]; decide
  · rw [h3]; simp [toInt64]

/-- C3: the timebase fast path's reciprocal sequence (UMULH against the
constant 0xAAAAAAAAAAAAAAAB built by ORR+ADD, then a right shift by 3, a total
shift of 67) is bit-identical to the true integer quotient by 12 for every
64-bit input; the sequence contains no division. -/
theorem C3_timebase_div12_exact (a : Nat) (ha : a < 2 ^ 64) : tbDiv12 a = a / 12 := by
  unfold tbDiv12 UMULH tbReciprocal
  rw [Nat.mod_eq_of_lt ha, Nat.shiftRight_eq_div_pow, Nat.div_div_eq_div_mul]
  norm_num
  omega

/-- C3 witness at the largest representable input. -/
theorem C3_timebase_div12_witness :
    2 ^ 64 - 1 < 2 ^ 64 ∧ tbDiv12 (2 ^ 64 - 1) = (2 ^ 64 - 1) / 12 :=
  ⟨by norm_num, C3_timebase_div12_exact (2 ^ 64 - 1) (by norm_num)⟩

/-- C8 is false as stated for ClearCRFieldBit: clearing SO on the zero packed
word leaves marker bit 32 clear (ClearCRFieldBit never ORs the marker in). -/
theorem C8_counterexample : (ClearCRFieldBit CR_SO_BIT 0).testBit 32 = false := by decide

/-- C8 amended: both SetCRFieldBit forms always set marker bit 32 after a
write; ClearCRFieldBit does not establish the marker but does preserve it. -/
theorem C8_amended_marker (bit i : Nat) (neg hint : Bool) (cr : Nat) (hcr : cr < 2 ^ 64) :
    (SetCRFieldBit bit i neg hint cr).testBit 32 = true ∧
    (SetCRFieldBitImm bit cr).testBit 32 = true ∧
    (cr.testBit 32 = true → (ClearCRFieldBit bit cr).testBit 32 = true) := by
  refine ⟨?_, ?_, ?_⟩
  · simp [SetCRFieldBit, Nat.testBit_lor, Nat.testBit_shiftLeft, testBit_one_zero]
    simp [Nat.testBit_to_div_mod]
  · simp [SetCRFieldBitImm, Nat.testBit_lor, Nat.testBit_shiftLeft, testBit_one_zero]
    simp [Nat.testBit_to_div_mod]
  · intro h32
    have hne : cr ≠ 0 := by
      intro h0
      rw [h0, Nat.zero_testBit] at h32
      exact Bool.false_ne_true h32
    rcases bit with _|_|_|_|n
    · simp [ClearCRFieldBit, CR_SO_BIT, CR_EQ_BIT, CR_GT_BIT, CR_LT_BIT, CR_EMU_SO_BIT,
        Nat.testBit_land, Nat.testBit_lor, h32]
      simp [Nat.testBit_to_div_mod]
    · simp only [ClearCRFieldBit, CR_SO_BIT, CR_EQ_BIT, CR_GT_BIT, CR_LT_BIT]
      rw [if_neg (by decide), if_pos (by decide), FixGT_eq hcr]
      simp [hne, Nat.testBit_lor, h32]
    · simp [ClearCRFieldBit, CR_SO_BIT, CR_EQ_BIT, CR_GT_BIT, CR_LT_BIT,
        Nat.testBit_lor, h32]
    · simp [ClearCRFieldBit, CR_SO_BIT, CR_EQ_BIT, CR_GT_BIT, CR_LT_BIT, CR_EMU_LT_BIT,
        Nat.testBit_land, Nat.testBit_lor, h32]
      simp [Nat.testBit_to_div_mod]
    · simp [ClearCRFieldBit, CR_SO_BIT, CR_EQ_BIT, CR_GT_BIT, CR_LT_BIT, h32]

/-- C8 amended witness at a concrete word with the marker bit set. -/
theorem C8_amended_marker_witness :
    (SetCRFieldBit CR_SO_BIT 1 false false (2 ^ 32)).testBit 32 = true ∧
    (SetCRFieldBitImm CR_SO_BIT (2 ^ 32)).testBit 32 = true ∧
    (ClearCRFieldBit CR_SO_BIT (2 ^ 32)).testBit 32 = true := by
  obtain ⟨h1, h2, h3⟩ := C8_amended_marker CR_SO_BIT 1 false false (2 ^ 32) (by norm_num)
  exact ⟨h1, h2, h3 (by decide)⟩


theorem testBit63_of_or {x y : Nat} (hx : x.testBit 63 = true) :
    (x ||| y).testBit 63 = true := by
  rw [Nat.testBit_lor, hx]
  rfl

theorem testBit63_of_or_right {x y : Nat} (hy : y.testBit 63 = true) :
    (x ||| y).testBit 63 = true := by
  rw [Nat.testBit_lor, hy]
  simp

theorem gtFlag_false_of_testBit63 {w : Nat} (hw : w < 2 ^ 64) (h : w.testBit 63 = true) :
    gtFlag w = false := by
  rw [gtFlag_eq hw, h]
  simp

/-- C1: for every non-GT flag write (register-input SetCRFieldBit, literal
SetCRFieldBitImm, ClearCRFieldBit), if GT reads as false before the write it
still reads as false afterwards: the FixGT sentinel (or the masking shape of
the literal clear) keeps a zero word from turning into a positive one. -/
theorem C1_gt_guard (bit i : Nat) (neg hint : Bool) (cr : Nat)
    (hbit : bit < 4) (hne : bit ≠ CR_GT_BIT) (hcr : cr < 2 ^ 64) (hi : i < 2 ^ 32)
    (hgt : gtFlag cr = false) :
    gtFlag (SetCRFieldBit bit i neg hint cr) = false ∧
    gtFlag (SetCRFieldBitImm bit cr) = false ∧
    gtFlag (ClearCRFieldBit bit cr) = false := by
  have hi64 : i < 2 ^ 64 := by omega
  have hI63 : i.testBit 63 = false := Nat.testBit_eq_false_of_lt (by omega)
  have hor : cr = 0 ∨ cr.testBit 63 = true := by
    rw [gtFlag_eq hcr] at hgt
    by_cases h0 : cr = 0
    · exact Or.inl h0
    · right
      simp [h0] at hgt
      exact hgt
  have hfix63 : (FixGTBeforeSettingCRFieldBit cr).testBit 63 = true := by
    rw [FixGT_eq hcr]
    rcases hor with h0 | h63
    · simp [h0]
      decide
    · have h0 : cr ≠ 0 := by
        intro e
        rw [e, Nat.zero_testBit] at h63
        exact Bool.false_ne_true h63
      simp [h0, h63]
  refine ⟨?_, ?_, ?_⟩
  · apply gtFlag_false_of_testBit63 (SetCRFieldBit_lt bit i neg hint cr hcr hi64)
    rcases bit with _|_|_|_|n
    · cases neg <;>
        simp [SetCRFieldBit, CR_SO_BIT, CR_EQ_BIT, CR_GT_BIT, CR_LT_BIT, CR_EMU_SO_BIT,
          CR_EMU_LT_BIT, BFI64, Nat.testBit_lor, Nat.testBit_land, Nat.testBit_xor,
          Nat.testBit_shiftLeft, hfix63, hI63] <;>
        simp [Nat.testBit_to_div_mod]
    · cases neg <;> cases hint <;>
        simp [SetCRFieldBit, CR_SO_BIT, CR_EQ_BIT, CR_GT_BIT, CR_LT_BIT, CR_EMU_SO_BIT,
          CR_EMU_LT_BIT, BFI64, Nat.testBit_lor, Nat.testBit_land, Nat.testBit_xor,
          Nat.testBit_shiftLeft, hfix63, hI63] <;>
        simp [Nat.testBit_to_div_mod]
    · exact absurd (by decide) hne
    · cases neg <;>
        simp [SetCRFieldBit, CR_SO_BIT, CR_EQ_BIT, CR_GT_BIT, CR_LT_BIT, CR_EMU_SO_BIT,
          CR_EMU_LT_BIT, BFI64, Nat.testBit_lor, Nat.testBit_land, Nat.testBit_xor,
          Nat.testBit_shiftLeft, hfix63, hI63] <;>
        simp [Nat.testBit_to_div_mod]
    · omega
  · apply gtFlag_false_of_testBit63 (SetCRFieldBitImm_lt bit cr hcr)
    rcases bit with _|_|_|_|n
    · simp [SetCRFieldBitImm, CR_SO_BIT, CR_EQ_BIT, CR_GT_BIT, CR_LT_BIT, CR_EMU_SO_BIT,
        CR_EMU_LT_BIT, Nat.testBit_lor, Nat.testBit_land, hfix63]
    · simp [SetCRFieldBitImm, CR_SO_BIT, CR_EQ_BIT, CR_GT_BIT, CR_LT_BIT, CR_EMU_SO_BIT,
        CR_EMU_LT_BIT, Nat.testBit_lor, Nat.testBit_land, hfix63]
      simp [Nat.testBit_to_div_mod]
    · exact absurd (by decide) hne
    · simp [SetCRFieldBitImm, CR_SO_BIT, CR_EQ_BIT, CR_GT_BIT, CR_LT_BIT, CR_EMU_SO_BIT,
        CR_EMU_LT_BIT, Nat.testBit_lor, Nat.testBit_land, hfix63]
    · omega
  · rcases hor with h0 | h63
    · subst h0
      rcases bit with _|_|_|_|n
      · decide
      · decide
      · exact absurd (by decide) hne
      · decide
      · omega
    · apply gtFlag_false_of_testBit63 (ClearCRFieldBit_lt bit cr hcr)
      rcases bit with _|_|_|_|n
      · simp [ClearCRFieldBit, CR_SO_BIT, CR_EQ_BIT, CR_GT_BIT, CR_LT_BIT, CR_EMU_SO_BIT,
          Nat.testBit_land, h63]
        simp [Nat.testBit_to_div_mod]
      · simp only [ClearCRFieldBit, CR_SO_BIT, CR_EQ_BIT, CR_GT_BIT, CR_LT_BIT]
        rw [if_pos trivial]
        exact testBit63_of_or hfix63
      · exact absurd (by decide) hne
      · simp [ClearCRFieldBit, CR_SO_BIT, CR_EQ_BIT, CR_GT_BIT, CR_LT_BIT, CR_EMU_LT_BIT,
          Nat.testBit_land, h63]
        simp [Nat.testBit_to_div_mod]
      · omega

/-- C1 witness: the regression instance from the spec — starting from packed
word 0 (GT false), setting SO leaves GT false in all three write forms. -/
theorem C1_gt_guard_witness :
    gtFlag (SetCRFieldBit CR_SO_BIT 1 false false 0) = false ∧
    gtFlag (SetCRFieldBitImm CR_SO_BIT 0) = false ∧
    gtFlag (ClearCRFieldBit CR_SO_BIT 0) = false :=
  C1_gt_guard CR_SO_BIT 1 false false 0 (by decide) (by decide) (by norm_num)
    (by decide) (by decide)


/-- Shape of the combined-flag operand handed to SetCRFieldBit by crXXX: a
plain 0/1 word, or, when the 32-bit EON/ORN forms were used, a word with bits
1..31 set and the flag in bit 0. -/
def flagInput (v hint : Bool) : Nat :=
  if hint then 0xFFFFFFFE ||| (if v then 1 else 0) else (if v then 1 else 0)

theorem flagInput_testBit0 (v hint : Bool) : (flagInput v hint).testBit 0 = v := by
  cases v <;> cases hint <;> decide

theorem flagInput_lt (v hint : Bool) : flagInput v hint < 2 ^ 32 := by
  cases v <;> cases hint <;> decide

theorem crFlag_set_readback (bit : Nat) (hbit : bit < 4) (v neg hint : Bool) (i : Nat)
    (hiv : i = flagInput v hint) (cr : Nat) (hcr : cr < 2 ^ 64) :
    crFlag bit (SetCRFieldBit bit i neg hint cr) = (v ^^ neg) := by
  subst hiv
  rcases bit with _|_|_|_|n
  · unfold crFlag
    rw [if_pos (by decide : (0 : Nat) = CR_SO_BIT)]
    rw [show (0 : Nat) = CR_SO_BIT from by decide] at *
    rw [soFlag_set _ _ _ _ hcr, flagInput_testBit0]
  · unfold crFlag
    rw [if_neg (by decide : ¬(0 + 1 = CR_SO_BIT)), if_pos (by decide : 0 + 1 = CR_EQ_BIT)]
    rw [show (0 + 1 : Nat) = CR_EQ_BIT from by decide] at *
    cases hint
    · rw [show flagInput v false = (if v then 1 else 0) from by cases v <;> decide]
      exact eqFlag_set_plain v neg cr hcr
    · rw [show flagInput v true = (0xFFFFFFFE ||| (if v then 1 else 0)) from by cases v <;> decide]
      exact eqFlag_set_hint v neg cr hcr
  · unfold crFlag
    rw [if_neg (by decide : ¬(0 + 1 + 1 = CR_SO_BIT)),
      if_neg (by decide : ¬(0 + 1 + 1 = CR_EQ_BIT)),
      if_pos (by decide : 0 + 1 + 1 = CR_GT_BIT)]
    rw [show (0 + 1 + 1 : Nat) = CR_GT_BIT from by decide] at *
    rw [gtFlag_set _ _ _ _ hcr (lt_trans (flagInput_lt v hint) (by norm_num)),
      flagInput_testBit0]
  · unfold crFlag
    rw [if_neg (by decide : ¬(0 + 1 + 1 + 1 = CR_SO_BIT)),
      if_neg (by decide : ¬(0 + 1 + 1 + 1 = CR_EQ_BIT)),
      if_neg (by decide : ¬(0 + 1 + 1 + 1 = CR_GT_BIT))]
    rw [show (0 + 1 + 1 + 1 : Nat) = CR_LT_BIT from by decide] at *
    rw [ltFlag_set _ _ _ _ hcr, flagInput_testBit0]
  · omega

theorem crFlag_clear_readback (bit : Nat) (hbit : bit < 4) (cr : Nat) (hcr : cr < 2 ^ 64) :
    crFlag bit (ClearCRFieldBit bit cr) = false := by
  rcases bit with _|_|_|_|n
  · unfold crFlag ClearCRFieldBit
    rw [if_pos (by decide : (0 : Nat) = CR_SO_BIT), if_pos (by decide : (0 : Nat) = CR_SO_BIT)]
    unfold soFlag
    simp [Nat.testBit_land, CR_EMU_SO_BIT]
    simp [Nat.testBit_to_div_mod]
  · unfold crFlag ClearCRFieldBit
    rw [if_neg (by decide : ¬(0 + 1 = CR_SO_BIT)), if_pos (by decide : 0 + 1 = CR_EQ_BIT),
      if_neg (by decide : ¬(0 + 1 = CR_SO_BIT)), if_pos (by decide : 0 + 1 = CR_EQ_BIT),
      FixGT_eq hcr]
    unfold eqFlag
    by_cases h0 : cr = 0
    · simp [h0]
    · have hb : (cr % 4294967296 ||| 1).testBit 0 = true := by
        rw [Nat.testBit_lor, testBit_one_zero]
        simp
      rw [if_neg h0, mod_two_pow_lor]
      norm_num
      exact fun he => by
        rw [he, Nat.zero_testBit] at hb
        exact Bool.false_ne_true hb
  · unfold crFlag ClearCRFieldBit
    rw [if_neg (by decide : ¬(0 + 1 + 1 = CR_SO_BIT)),
      if_neg (by decide : ¬(0 + 1 + 1 = CR_EQ_BIT)),
      if_pos (by decide : 0 + 1 + 1 = CR_GT_BIT),
      if_neg (by decide : ¬(0 + 1 + 1 = CR_SO_BIT)),
      if_neg (by decide : ¬(0 + 1 + 1 = CR_EQ_BIT)),
      if_pos (by decide : 0 + 1 + 1 = CR_GT_BIT)]
    exact gtFlag_false_of_testBit63 (Nat.or_lt_two_pow hcr (by decide))
      (testBit63_of_or_right (by decide))
  · unfold crFlag ClearCRFieldBit
    rw [if_neg (by decide : ¬(0 + 1 + 1 + 1 = CR_SO_BIT)),
      if_neg (by decide : ¬(0 + 1 + 1 + 1 = CR_EQ_BIT)),
      if_neg (by decide : ¬(0 + 1 + 1 + 1 = CR_GT_BIT)),
      if_neg (by decide : ¬(0 + 1 + 1 + 1 = CR_SO_BIT)),
      if_neg (by decide : ¬(0 + 1 + 1 + 1 = CR_EQ_BIT)),
      if_neg (by decide : ¬(0 + 1 + 1 + 1 = CR_GT_BIT))]
    rw [if_pos (by decide : 0 + 1 + 1 + 1 = CR_LT_BIT)]
    unfold ltFlag
    simp [Nat.testBit_land, CR_EMU_LT_BIT]
    simp [Nat.testBit_to_div_mod]
  · omega


theorem crFlag_imm_readback (bit : Nat) (hbit : bit < 4) (cr : Nat) (hcr : cr < 2 ^ 64) :
    crFlag bit (SetCRFieldBitImm bit cr) = true := by
  rcases bit with _|_|_|_|n
  · unfold crFlag SetCRFieldBitImm
    simp only []
    rw [if_pos (by decide : (0 : Nat) = CR_SO_BIT),
      if_pos (by decide : (0 : Nat) ≠ CR_GT_BIT),
      if_pos (by decide : (0 : Nat) = CR_SO_BIT)]
    unfold soFlag
    simp [Nat.testBit_lor, CR_EMU_SO_BIT]
    simp [Nat.testBit_to_div_mod]
  · unfold crFlag SetCRFieldBitImm
    simp only []
    rw [if_neg (by decide : ¬(0 + 1 = CR_SO_BIT)), if_pos (by decide : 0 + 1 = CR_EQ_BIT),
      if_pos (by decide : (0 + 1 : Nat) ≠ CR_GT_BIT),
      if_neg (by decide : ¬(0 + 1 = CR_SO_BIT)), if_pos (by decide : 0 + 1 = CR_EQ_BIT)]
    unfold eqFlag
    rw [mod_two_pow_lor, mod_two_pow_land]
    norm_num
    decide
  · unfold crFlag SetCRFieldBitImm
    simp only []
    rw [if_neg (by decide : ¬(0 + 1 + 1 = CR_SO_BIT)),
      if_neg (by decide : ¬(0 + 1 + 1 = CR_EQ_BIT)),
      if_pos (by decide : 0 + 1 + 1 = CR_GT_BIT),
      if_neg (by decide : ¬((0 + 1 + 1 : Nat) ≠ CR_GT_BIT)),
      if_neg (by decide : ¬(0 + 1 + 1 = CR_SO_BIT)),
      if_neg (by decide : ¬(0 + 1 + 1 = CR_EQ_BIT)),
      if_pos (by decide : 0 + 1 + 1 = CR_GT_BIT)]
    have hXlt : (cr &&& ((2 ^ 64 - 1) ^^^ (1 <<< 63))) ||| (1 <<< 32) < 2 ^ 64 :=
      Nat.or_lt_two_pow (lt_of_le_of_lt Nat.and_le_right (by decide)) (by decide)
    rw [gtFlag_eq hXlt]
    have h32 : ((cr &&& ((2 ^ 64 - 1) ^^^ (1 <<< 63))) ||| (1 <<< 32)).testBit 32 = true := by
      rw [Nat.testBit_lor]
      simp [Nat.testBit_to_div_mod]
    have h63 : ((cr &&& ((2 ^ 64 - 1) ^^^ (1 <<< 63))) ||| (1 <<< 32)).testBit 63 = false := by
      rw [Nat.testBit_lor, Nat.testBit_land]
      simp [Nat.testBit_to_div_mod]
    have hne : (cr &&& ((2 ^ 64 - 1) ^^^ (1 <<< 63))) ||| (1 <<< 32) ≠ 0 := by
      intro he
      rw [he, Nat.zero_testBit] at h32
      exact Bool.false_ne_true h32
    rw [h63]
    simp only [Bool.not_false, Bool.and_true, decide_eq_true_eq]
    exact hne
  · unfold crFlag SetCRFieldBitImm
    simp only []
    rw [if_neg (by decide : ¬(0 + 1 + 1 + 1 = CR_SO_BIT)),
      if_neg (by decide : ¬(0 + 1 + 1 + 1 = CR_EQ_BIT)),
      if_neg (by decide : ¬(0 + 1 + 1 + 1 = CR_GT_BIT)),
      if_pos (by decide : (0 + 1 + 1 + 1 : Nat) ≠ CR_GT_BIT),
      if_neg (by decide : ¬(0 + 1 + 1 + 1 = CR_SO_BIT)),
      if_neg (by decide : ¬(0 + 1 + 1 + 1 = CR_EQ_BIT)),
      if_neg (by decide : ¬(0 + 1 + 1 + 1 = CR_GT_BIT))]
    unfold ltFlag
    simp [Nat.testBit_lor, CR_EMU_LT_BIT]
    simp [Nat.testBit_to_div_mod]
  · omega


/-- C5: for each of the eight two-operand condition instructions and every
machine state, the destination flag written by crXXX equals the architectural
truth table of the sub-opcode applied to the two source flags; this covers the
same-bit-index special-case paths (crclr, crset, pass-through, inverted
pass-through) as well as the general combine path. -/
theorem C5_crXXX_truth_tables (subop10 crba crbb crbd : Nat) (st : Nat → Nat)
    (hsub : subop10 = 33 ∨ subop10 = 129 ∨ subop10 = 193 ∨ subop10 = 225 ∨
      subop10 = 257 ∨ subop10 = 289 ∨ subop10 = 417 ∨ subop10 = 449)
    (hst : ∀ f, st f < 2 ^ 64) :
    crFlag (bitOf crbd) (crXXX subop10 crba crbb crbd st (fieldOf crbd)) =
      crTruthTable subop10 (crFlag (bitOf crba) (st (fieldOf crba)))
        (crFlag (bitOf crbb) (st (fieldOf crbb))) := by
  have hbd : bitOf crbd < 4 := by unfold bitOf; omega
  have hba : bitOf crba < 4 := by unfold bitOf; omega
  have hbb : bitOf crbb < 4 := by unfold bitOf; omega
  by_cases hab : crba = crbb
  · subst hab
    have hA := getCRFieldBit_eq (bitOf crba) (st (fieldOf crba)) hba (hst _)
    rcases hsub with rfl|rfl|rfl|rfl|rfl|rfl|rfl|rfl
    · unfold crXXX
      simp only [show ¬(33 = 129 ∨ 33 = 193) from by decide,
        show ¬(33 = 289 ∨ 33 = 417) from by decide,
        show ¬(33 = 257 ∨ 33 = 449) from by decide,
        show (33 = 33 ∨ 33 = 225) from Or.inl rfl,
        true_or, or_true, true_and, and_true, and_false, false_and, if_true, if_false, ite_true, ite_false]
      rw [hA]
      cases hv : crFlag (bitOf crba) (st (fieldOf crba))
      · rw [crFlag_set_readback (bitOf crbd) hbd false true false _ (by decide) _ (hst _)]
        decide
      · rw [crFlag_set_readback (bitOf crbd) hbd true true false _ (by decide) _ (hst _)]
        decide
    · unfold crXXX
      simp only [show (129 = 129 ∨ 129 = 193) from Or.inl rfl,
        show ¬(129 = 289 ∨ 129 = 417) from by decide,
        show ¬(129 = 257 ∨ 129 = 449) from by decide,
        show ¬(129 = 33 ∨ 129 = 225) from by decide,
        true_or, or_true, true_and, and_true, and_false, false_and, if_true, if_false, ite_true, ite_false]
      rw [crFlag_clear_readback (bitOf crbd) hbd _ (hst _)]
      cases hv : crFlag (bitOf crba) (st (fieldOf crba)) <;> decide
    · unfold crXXX
      simp only [show (193 = 129 ∨ 193 = 193) from Or.inr rfl,
        show ¬(193 = 289 ∨ 193 = 417) from by decide,
        show ¬(193 = 257 ∨ 193 = 449) from by decide,
        show ¬(193 = 33 ∨ 193 = 225) from by decide,
        true_or, or_true, true_and, and_true, and_false, false_and, if_true, if_false, ite_true, ite_false]
      rw [crFlag_clear_readback (bitOf crbd) hbd _ (hst _)]
      cases hv : crFlag (bitOf crba) (st (fieldOf crba)) <;> decide
    · unfold crXXX
      simp only [show ¬(225 = 129 ∨ 225 = 193) from by decide,
        show ¬(225 = 289 ∨ 225 = 417) from by decide,
        show ¬(225 = 257 ∨ 225 = 449) from by decide,
        show (225 = 33 ∨ 225 = 225) from Or.inr rfl,
        true_or, or_true, true_and, and_true, and_false, false_and, if_true, if_false, ite_true, ite_false]
      rw [hA]
      cases hv : crFlag (bitOf crba) (st (fieldOf crba))
      · rw [crFlag_set_readback (bitOf crbd) hbd false true false _ (by decide) _ (hst _)]
        decide
      · rw [crFlag_set_readback (bitOf crbd) hbd true true false _ (by decide) _ (hst _)]
        decide
    · unfold crXXX
      simp only [show ¬(257 = 129 ∨ 257 = 193) from by decide,
        show ¬(257 = 289 ∨ 257 = 417) from by decide,
        show (257 = 257 ∨ 257 = 449) from Or.inl rfl,
        show ¬(257 = 33 ∨ 257 = 225) from by decide,
        true_or, or_true, true_and, and_true, and_false, false_and, if_true, if_false, ite_true, ite_false]
      rw [hA]
      cases hv : crFlag (bitOf crba) (st (fieldOf crba))
      · rw [crFlag_set_readback (bitOf crbd) hbd false false false _ (by decide) _ (hst _)]
        decide
      · rw [crFlag_set_readback (bitOf crbd) hbd true false false _ (by decide) _ (hst _)]
        decide
    · unfold crXXX
      simp only [show ¬(289 = 129 ∨ 289 = 193) from by decide,
        show (289 = 289 ∨ 289 = 417) from Or.inl rfl,
        show ¬(289 = 257 ∨ 289 = 449) from by decide,
        show ¬(289 = 33 ∨ 289 = 225) from by decide,
        true_or, or_true, true_and, and_true, and_false, false_and, if_true, if_false, ite_true, ite_false]
      rw [crFlag_imm_readback (bitOf crbd) hbd _ (hst _)]
      cases hv : crFlag (bitOf crba) (st (fieldOf crba)) <;> decide
    · unfold crXXX
      simp only [show ¬(417 = 129 ∨ 417 = 193) from by decide,
        show (417 = 289 ∨ 417 = 417) from Or.inr rfl,
        show ¬(417 = 257 ∨ 417 = 449) from by decide,
        show ¬(417 = 33 ∨ 417 = 225) from by decide,
        true_or, or_true, true_and, and_true, and_false, false_and, if_true, if_false, ite_true, ite_false]
      rw [crFlag_imm_readback (bitOf crbd) hbd _ (hst _)]
      cases hv : crFlag (bitOf crba) (st (fieldOf crba)) <;> decide
    · unfold crXXX
      simp only [show ¬(449 = 129 ∨ 449 = 193) from by decide,
        show ¬(449 = 289 ∨ 449 = 417) from by decide,
        show (449 = 257 ∨ 449 = 449) from Or.inr rfl,
        show ¬(449 = 33 ∨ 449 = 225) from by decide,
        true_or, or_true, true_and, and_true, and_false, false_and, if_true, if_false, ite_true, ite_false]
      rw [hA]
      cases hv : crFlag (bitOf crba) (st (fieldOf crba))
      · rw [crFlag_set_readback (bitOf crbd) hbd false false false _ (by decide) _ (hst _)]
        decide
      · rw [crFlag_set_readback (bitOf crbd) hbd true false false _ (by decide) _ (hst _)]
        decide
  · have hA := getCRFieldBit_eq (bitOf crba) (st (fieldOf crba)) hba (hst _)
    have hB := getCRFieldBit_eq (bitOf crbb) (st (fieldOf crbb)) hbb (hst _)
    rcases hsub with rfl|rfl|rfl|rfl|rfl|rfl|rfl|rfl
    · unfold crXXX
      simp only [hab, show ¬(33 = 225 ∨ 33 = 257) from by decide,
        show ¬(33 = 129) from by decide,
        show ¬(33 = 193) from by decide,
        show ¬(33 = 289) from by decide,
        show (33 = 33 ∨ 33 = 449) from Or.inl rfl,
        show decide (33 = 225) = false from by decide,
        show decide (33 = 289) = false from by decide,
        show decide (33 = 417) = false from by decide,
        decide_True,
        decide_False,
        Bool.false_or,
        Bool.or_false,
        Bool.true_or,
        Bool.or_true,
        Bool.false_and,
        Bool.and_false,
        Bool.true_and,
        Bool.and_true,
        Bool.not_true,
        Bool.not_false,
        true_or, or_true, true_and, and_true, and_false, false_and, if_true, if_false, ite_true, ite_false]
      rw [hA, hB]
      rw [crFlag_set_readback (bitOf crbd) hbd
        (crFlag (bitOf crba) (st (fieldOf crba)) || crFlag (bitOf crbb) (st (fieldOf crbb))) true false _ (by
          cases crFlag (bitOf crba) (st (fieldOf crba)) <;> cases crFlag (bitOf crbb) (st (fieldOf crbb)) <;> decide) _ (hst _)]
      cases crFlag (bitOf crba) (st (fieldOf crba)) <;> cases crFlag (bitOf crbb) (st (fieldOf crbb)) <;> decide
    · unfold crXXX
      simp only [hab, show ¬(129 = 225 ∨ 129 = 257) from by decide,
        show ¬(129 = 193) from by decide,
        show ¬(129 = 289) from by decide,
        show ¬(129 = 33 ∨ 129 = 449) from by decide,
        show decide (129 = 33) = false from by decide,
        show decide (129 = 225) = false from by decide,
        show decide (129 = 289) = false from by decide,
        show decide (129 = 417) = false from by decide,
        decide_True,
        decide_False,
        Bool.false_or,
        Bool.or_false,
        Bool.true_or,
        Bool.or_true,
        Bool.false_and,
        Bool.and_false,
        Bool.true_and,
        Bool.and_true,
        Bool.not_true,
        Bool.not_false,
        true_or, or_true, true_and, and_true, and_false, false_and, if_true, if_false, ite_true, ite_false]
      rw [hA, hB]
      rw [crFlag_set_readback (bitOf crbd) hbd
        (crFlag (bitOf crba) (st (fieldOf crba)) && !crFlag (bitOf crbb) (st (fieldOf crbb))) false false _ (by
          cases crFlag (bitOf crba) (st (fieldOf crba)) <;> cases crFlag (bitOf crbb) (st (fieldOf crbb)) <;> decide) _ (hst _)]
      cases crFlag (bitOf crba) (st (fieldOf crba)) <;> cases crFlag (bitOf crbb) (st (fieldOf crbb)) <;> decide
    · unfold crXXX
      simp only [hab, show ¬(193 = 225 ∨ 193 = 257) from by decide,
        show ¬(193 = 129) from by decide,
        show ¬(193 = 289) from by decide,
        show ¬(193 = 33 ∨ 193 = 449) from by decide,
        show decide (193 = 33) = false from by decide,
        show decide (193 = 225) = false from by decide,
        show decide (193 = 289) = false from by decide,
        show decide (193 = 417) = false from by decide,
        decide_True,
        decide_False,
        Bool.false_or,
        Bool.or_false,
        Bool.true_or,
        Bool.or_true,
        Bool.false_and,
        Bool.and_false,
        Bool.true_and,
        Bool.and_true,
        Bool.not_true,
        Bool.not_false,
        true_or, or_true, true_and, and_true, and_false, false_and, if_true, if_false, ite_true, ite_false]
      rw [hA, hB]
      rw [crFlag_set_readback (bitOf crbd) hbd
        (crFlag (bitOf crba) (st (fieldOf crba)) ^^ crFlag (bitOf crbb) (st (fieldOf crbb))) false false _ (by
          cases crFlag (bitOf crba) (st (fieldOf crba)) <;> cases crFlag (bitOf crbb) (st (fieldOf crbb)) <;> decide) _ (hst _)]
      cases crFlag (bitOf crba) (st (fieldOf crba)) <;> cases crFlag (bitOf crbb) (st (fieldOf crbb)) <;> decide
    · unfold crXXX
      simp only [hab, show (225 = 225 ∨ 225 = 257) from Or.inl rfl,
        show ¬(225 = 129) from by decide,
        show ¬(225 = 193) from by decide,
        show ¬(225 = 289) from by decide,
        show ¬(225 = 33 ∨ 225 = 449) from by decide,
        show decide (225 = 33) = false from by decide,
        show decide (225 = 289) = false from by decide,
        show decide (225 = 417) = false from by decide,
        decide_True,
        decide_False,
        Bool.false_or,
        Bool.or_false,
        Bool.true_or,
        Bool.or_true,
        Bool.false_and,
        Bool.and_false,
        Bool.true_and,
        Bool.and_true,
        Bool.not_true,
        Bool.not_false,
        true_or, or_true, true_and, and_true, and_false, false_and, if_true, if_false, ite_true, ite_false]
      rw [hA, hB]
      rw [crFlag_set_readback (bitOf crbd) hbd
        (crFlag (bitOf crba) (st (fieldOf crba)) && crFlag (bitOf crbb) (st (fieldOf crbb))) true false _ (by
          cases crFlag (bitOf crba) (st (fieldOf crba)) <;> cases crFlag (bitOf crbb) (st (fieldOf crbb)) <;> decide) _ (hst _)]
      cases crFlag (bitOf crba) (st (fieldOf crba)) <;> cases crFlag (bitOf crbb) (st (fieldOf crbb)) <;> decide
    · unfold crXXX
      simp only [hab, show (257 = 225 ∨ 257 = 257) from Or.inr rfl,
        show ¬(257 = 129) from by decide,
        show ¬(257 = 193) from by decide,
        show ¬(257 = 289) from by decide,
        show ¬(257 = 33 ∨ 257 = 449) from by decide,
        show decide (257 = 33) = false from by decide,
        show decide (257 = 225) = false from by decide,
        show decide (257 = 289) = false from by decide,
        show decide (257 = 417) = false from by decide,
        decide_True,
        decide_False,
        Bool.false_or,
        Bool.or_false,
        Bool.true_or,
        Bool.or_true,
        Bool.false_and,
        Bool.and_false,
        Bool.true_and,
        Bool.and_true,
        Bool.not_true,
        Bool.not_false,
        true_or, or_true, true_and, and_true, and_false, false_and, if_true, if_false, ite_true, ite_false]
      rw [hA, hB]
      rw [crFlag_set_readback (bitOf crbd) hbd
        (crFlag (bitOf crba) (st (fieldOf crba)) && crFlag (bitOf crbb) (st (fieldOf crbb))) false false _ (by
          cases crFlag (bitOf crba) (st (fieldOf crba)) <;> cases crFlag (bitOf crbb) (st (fieldOf crbb)) <;> decide) _ (hst _)]
      cases crFlag (bitOf crba) (st (fieldOf crba)) <;> cases crFlag (bitOf crbb) (st (fieldOf crbb)) <;> decide
    · rcases (show bitOf crbd = 0 ∨ bitOf crbd = 1 ∨ bitOf crbd = 2 ∨ bitOf crbd = 3 from
        by omega) with h4|h4|h4|h4 <;> unfold crXXX
      · rw [h4] at *
        simp only [hab, show ¬(289 = 225 ∨ 289 = 257) from by decide,
          show ¬(289 = 129) from by decide,
          show ¬(289 = 193) from by decide,
          show decide (289 = 33) = false from by decide,
          show decide (289 = 225) = false from by decide,
          show decide (289 = 417) = false from by decide,
          decide_True,
          decide_False,
          Bool.false_or,
          Bool.or_false,
          Bool.true_or,
          Bool.or_true,
          Bool.false_and,
          Bool.and_false,
          Bool.true_and,
          Bool.and_true,
          Bool.not_true,
          Bool.not_false,
          show decide ((0 : Nat) = CR_EQ_BIT) = false from by decide, show decide ((0 : Nat) = CR_GT_BIT) = false from by decide,
          true_or, or_true, true_and, and_true, and_false, false_and, if_true, if_false, ite_true, ite_false]
        rw [hA, hB]
        rw [crFlag_set_readback 0 (by decide)
          (!(crFlag (bitOf crba) (st (fieldOf crba)) ^^ crFlag (bitOf crbb) (st (fieldOf crbb)))) false true _ (by
            cases crFlag (bitOf crba) (st (fieldOf crba)) <;> cases crFlag (bitOf crbb) (st (fieldOf crbb)) <;> decide) _ (hst _)]
        cases crFlag (bitOf crba) (st (fieldOf crba)) <;> cases crFlag (bitOf crbb) (st (fieldOf crbb)) <;> decide
      · rw [h4] at *
        simp only [hab, show ¬(289 = 225 ∨ 289 = 257) from by decide,
          show ¬(289 = 129) from by decide,
          show ¬(289 = 193) from by decide,
          show decide (289 = 33) = false from by decide,
          show decide (289 = 225) = false from by decide,
          show decide (289 = 417) = false from by decide,
          decide_True,
          decide_False,
          Bool.false_or,
          Bool.or_false,
          Bool.true_or,
          Bool.or_true,
          Bool.false_and,
          Bool.and_false,
          Bool.true_and,
          Bool.and_true,
          Bool.not_true,
          Bool.not_false,
          show decide ((1 : Nat) = CR_EQ_BIT) = true from by decide, show decide ((1 : Nat) = CR_GT_BIT) = false from by decide,
          true_or, or_true, true_and, and_true, and_false, false_and, if_true, if_false, ite_true, ite_false]
        rw [hA, hB]
        rw [crFlag_set_readback 1 (by decide)
          (crFlag (bitOf crba) (st (fieldOf crba)) ^^ crFlag (bitOf crbb) (st (fieldOf crbb))) true false _ (by
            cases crFlag (bitOf crba) (st (fieldOf crba)) <;> cases crFlag (bitOf crbb) (st (fieldOf crbb)) <;> decide) _ (hst _)]
        cases crFlag (bitOf crba) (st (fieldOf crba)) <;> cases crFlag (bitOf crbb) (st (fieldOf crbb)) <;> decide
      · rw [h4] at *
        simp only [hab, show ¬(289 = 225 ∨ 289 = 257) from by decide,
          show ¬(289 = 129) from by decide,
          show ¬(289 = 193) from by decide,
          show decide (289 = 33) = false from by decide,
          show decide (289 = 225) = false from by decide,
          show decide (289 = 417) = false from by decide,
          decide_True,
          decide_False,
          Bool.false_or,
          Bool.or_false,
          Bool.true_or,
          Bool.or_true,
          Bool.false_and,
          Bool.and_false,
          Bool.true_and,
          Bool.and_true,
          Bool.not_true,
          Bool.not_false,
          show decide ((2 : Nat) = CR_EQ_BIT) = false from by decide, show decide ((2 : Nat) = CR_GT_BIT) = true from by decide,
          true_or, or_true, true_and, and_true, and_false, false_and, if_true, if_false, ite_true, ite_false]
        rw [hA, hB]
        rw [crFlag_set_readback 2 (by decide)
          (crFlag (bitOf crba) (st (fieldOf crba)) ^^ crFlag (bitOf crbb) (st (fieldOf crbb))) true false _ (by
            cases crFlag (bitOf crba) (st (fieldOf crba)) <;> cases crFlag (bitOf crbb) (st (fieldOf crbb)) <;> decide) _ (hst _)]
        cases crFlag (bitOf crba) (st (fieldOf crba)) <;> cases crFlag (bitOf crbb) (st (fieldOf crbb)) <;> decide
      · rw [h4] at *
        simp only [hab, show ¬(289 = 225 ∨ 289 = 257) from by decide,
          show ¬(289 = 129) from by decide,
          show ¬(289 = 193) from by decide,
          show decide (289 = 33) = false from by decide,
          show decide (289 = 225) = false from by decide,
          show decide (289 = 417) = false from by decide,
          decide_True,
          decide_False,
          Bool.false_or,
          Bool.or_false,
          Bool.true_or,
          Bool.or_true,
          Bool.false_and,
          Bool.and_false,
          Bool.true_and,
          Bool.and_true,
          Bool.not_true,
          Bool.not_false,
          show decide ((3 : Nat) = CR_EQ_BIT) = false from by decide, show decide ((3 : Nat) = CR_GT_BIT) = false from by decide,
          true_or, or_true, true_and, and_true, and_false, false_and, if_true, if_false, ite_true, ite_false]
        rw [hA, hB]
        rw [crFlag_set_readback 3 (by decide)
          (!(crFlag (bitOf crba) (st (fieldOf crba)) ^^ crFlag (bitOf crbb) (st (fieldOf crbb)))) false true _ (by
            cases crFlag (bitOf crba) (st (fieldOf crba)) <;> cases crFlag (bitOf crbb) (st (fieldOf crbb)) <;> decide) _ (hst _)]
        cases crFlag (bitOf crba) (st (fieldOf crba)) <;> cases crFlag (bitOf crbb) (st (fieldOf crbb)) <;> decide
    · unfold crXXX
      simp only [hab, show ¬(417 = 225 ∨ 417 = 257) from by decide,
        show ¬(417 = 129) from by decide,
        show ¬(417 = 193) from by decide,
        show ¬(417 = 289) from by decide,
        show ¬(417 = 33 ∨ 417 = 449) from by decide,
        show decide (417 = 33) = false from by decide,
        show decide (417 = 225) = false from by decide,
        show decide (417 = 289) = false from by decide,
        decide_True,
        decide_False,
        Bool.false_or,
        Bool.or_false,
        Bool.true_or,
        Bool.or_true,
        Bool.false_and,
        Bool.and_false,
        Bool.true_and,
        Bool.and_true,
        Bool.not_true,
        Bool.not_false,
        true_or, or_true, true_and, and_true, and_false, false_and, if_true, if_false, ite_true, ite_false]
      rw [hA, hB]
      rw [crFlag_set_readback (bitOf crbd) hbd
        (crFlag (bitOf crba) (st (fieldOf crba)) || !crFlag (bitOf crbb) (st (fieldOf crbb))) false true _ (by
          cases crFlag (bitOf crba) (st (fieldOf crba)) <;> cases crFlag (bitOf crbb) (st (fieldOf crbb)) <;> decide) _ (hst _)]
      cases crFlag (bitOf crba) (st (fieldOf crba)) <;> cases crFlag (bitOf crbb) (st (fieldOf crbb)) <;> decide
    · unfold crXXX
      simp only [hab, show ¬(449 = 225 ∨ 449 = 257) from by decide,
        show ¬(449 = 129) from by decide,
        show ¬(449 = 193) from by decide,
        show ¬(449 = 289) from by decide,
        show (449 = 33 ∨ 449 = 449) from Or.inr rfl,
        show decide (449 = 33) = false from by decide,
        show decide (449 = 225) = false from by decide,
        show decide (449 = 289) = false from by decide,
        show decide (449 = 417) = false from by decide,
        decide_True,
        decide_False,
        Bool.false_or,
        Bool.or_false,
        Bool.true_or,
        Bool.or_true,
        Bool.false_and,
        Bool.and_false,
        Bool.true_and,
        Bool.and_true,
        Bool.not_true,
        Bool.not_false,
        true_or, or_true, true_and, and_true, and_false, false_and, if_true, if_false, ite_true, ite_false]
      rw [hA, hB]
      rw [crFlag_set_readback (bitOf crbd) hbd
        (crFlag (bitOf crba) (st (fieldOf crba)) || crFlag (bitOf crbb) (st (fieldOf crbb))) false false _ (by
          cases crFlag (bitOf crba) (st (fieldOf crba)) <;> cases crFlag (bitOf crbb) (st (fieldOf crbb)) <;> decide) _ (hst _)]
      cases crFlag (bitOf crba) (st (fieldOf crba)) <;> cases crFlag (bitOf crbb) (st (fieldOf crbb)) <;> decide


/-- C5 witness: crxor between two distinct bits of field 0 written into field 0
of a concrete state. -/
theorem C5_crXXX_truth_tables_witness :
    crFlag (bitOf 2) (crXXX 193 0 1 2 (fun f => if f = 0 then 2 ^ 62 else 2 ^ 32) (fieldOf 2)) =
      crTruthTable 193
        (crFlag (bitOf 0) ((fun f => if f = 0 then 2 ^ 62 else 2 ^ 32) (fieldOf 0) : Nat))
        (crFlag (bitOf 1) ((fun f => if f = 0 then 2 ^ 62 else 2 ^ 32) (fieldOf 1) : Nat)) :=
  C5_crXXX_truth_tables 193 0 1 2 (fun f => if f = 0 then 2 ^ 62 else 2 ^ 32)
    (Or.inr (Or.inr (Or.inl rfl)))
    (fun f => by by_cases h : f = 0 <;> simp [h] <;> norm_num)

/-- C9: the two creqv code shapes — 64-bit EOR of the two flag bits written
with negate, and 32-bit EON written with the bits-1..31-set hint — store the
identical destination flag NOT(A XOR B), for every destination flag, source
booleans, and starting packed word. -/
theorem C9_creqv_forms_equal (bit : Nat) (hbit : bit < 4) (A B : Bool) (cr : Nat)
    (hcr : cr < 2 ^ 64) :
    crFlag bit (SetCRFieldBit bit
        ((if A then (1 : Nat) else 0) ^^^ (if B then (1 : Nat) else 0)) true false cr)
      = !(A ^^ B) ∧
    crFlag bit (SetCRFieldBit bit
        (((if A then (1 : Nat) else 0) % 2 ^ 32) ^^^
          ((2 ^ 32 - 1) ^^^ ((if B then (1 : Nat) else 0) % 2 ^ 32))) false true cr)
      = !(A ^^ B) := by
  constructor
  · rw [crFlag_set_readback bit hbit (A ^^ B) true false _
      (by cases A <;> cases B <;> decide) cr hcr]
    cases A <;> cases B <;> decide
  · rw [crFlag_set_readback bit hbit (!(A ^^ B)) false true _
      (by cases A <;> cases B <;> decide) cr hcr]
    cases A <;> cases B <;> decide

/-- C9 witness: both creqv forms writing the GT flag of the zero packed word,
with A true and B false. -/
theorem C9_creqv_forms_witness :
    crFlag 2 (SetCRFieldBit 2
        ((if true then (1 : Nat) else 0) ^^^ (if false then (1 : Nat) else 0)) true false 0)
      = !(true ^^ false) ∧
    crFlag 2 (SetCRFieldBit 2
        (((if true then (1 : Nat) else 0) % 2 ^ 32) ^^^
          ((2 ^ 32 - 1) ^^^ ((if false then (1 : Nat) else 0) % 2 ^ 32))) false true 0)
      = !(true ^^ false) :=
  C9_creqv_forms_equal 2 (by decide) true false 0 (by norm_num)


theorem BFI32_testBit_of_ne (dst src lsb i : Nat) (hne : i ≠ lsb) (hlt : i < 32) :
    (BFI32 dst src lsb 1).testBit i = dst.testBit i := by
  unfold BFI32
  have h1 : ((2 ^ 1 - 1) <<< lsb : Nat) = 2 ^ lsb := by
    rw [Nat.shiftLeft_eq]
    norm_num
  rw [h1, Nat.testBit_lor, Nat.testBit_land, Nat.testBit_xor, Nat.testBit_two_pow_sub_one,
    Nat.testBit_two_pow_of_ne (fun he => hne he.symm), Nat.testBit_shiftLeft]
  by_cases hge : lsb ≤ i
  · have hk : 1 ≤ i - lsb := by omega
    have h4 : (src % 2 ^ 1).testBit (i - lsb) = false :=
      Nat.testBit_eq_false_of_lt
        (lt_of_lt_of_le (Nat.mod_lt _ (by norm_num))
          (Nat.pow_le_pow_right (by norm_num) hk))
    rw [h4]
    simp [hlt]
  · simp [hge, hlt]

theorem BFI32_lt1 (dst src lsb : Nat) (hlsb : lsb < 32) : BFI32 dst src lsb 1 < 2 ^ 32 := by
  unfold BFI32
  apply Nat.or_lt_two_pow
  · refine lt_of_le_of_lt Nat.and_le_right (Nat.xor_lt_two_pow (by norm_num) ?_)
    exact lt_of_lt_of_le (@Nat.shiftLeft_lt (2 ^ 1 - 1) 1 lsb (by norm_num))
      (Nat.pow_le_pow_right (by norm_num) (by omega))
  · exact lt_of_lt_of_le (Nat.shiftLeft_lt (Nat.mod_lt _ (by norm_num)))
      (Nat.pow_le_pow_right (by norm_num) (by omega))

theorem BFI32_testBit_hi (dst src lsb i : Nat) (hlsb : lsb < 32) (hi : 32 ≤ i) :
    (BFI32 dst src lsb 1).testBit i = false :=
  Nat.testBit_eq_false_of_lt
    (lt_of_lt_of_le (BFI32_lt1 dst src lsb hlsb) (Nat.pow_le_pow_right (by norm_num) hi))

theorem BFI32_testBit_self (dst src lsb : Nat) (hlsb : lsb < 32) :
    (BFI32 dst src lsb 1).testBit lsb = src.testBit 0 := by
  unfold BFI32
  have h1 : ((2 ^ 1 - 1) <<< lsb : Nat) = 2 ^ lsb := by
    rw [Nat.shiftLeft_eq]
    norm_num
  rw [h1, Nat.testBit_lor, Nat.testBit_land, Nat.testBit_xor, Nat.testBit_two_pow_sub_one,
    Nat.testBit_shiftLeft]
  have h2 : (2 ^ lsb).testBit lsb = true := by
    rw [Nat.testBit_two_pow]
    simp
  have h3 : (src % 2 ^ 1).testBit (lsb - lsb) = src.testBit 0 := by
    rw [Nat.sub_self, Nat.testBit_mod_two_pow]
    simp
  rw [h2, h3]
  simp [hlsb]

theorem updateFP_eq (v : Nat) :
    UpdateFPExceptionSummary v =
      BFI32 (BFI32 v (if FPSCR_VX_ANY &&& v ≠ 0 then 1 else 0) 29 1)
        (if ((BFI32 v (if FPSCR_VX_ANY &&& v ≠ 0 then 1 else 0) 29 1) &&& FPSCR_ANY_E) &&&
            ((BFI32 v (if FPSCR_VX_ANY &&& v ≠ 0 then 1 else 0) 29 1) >>> 22) ≠ 0 then 1 else 0)
        30 1 := by
  unfold UpdateFPExceptionSummary
  simp only []

theorem anyE_testBit_hi (i : Nat) (hi : 8 ≤ i) : Nat.testBit FPSCR_ANY_E i = false :=
  Nat.testBit_eq_false_of_lt
    (lt_of_lt_of_le (by norm_num [FPSCR_ANY_E]) (Nat.pow_le_pow_right (by norm_num) hi))

theorem updateFP_frame (v i : Nat) (hi29 : i ≠ 29) (hi30 : i ≠ 30) (hlt : i < 32) :
    (UpdateFPExceptionSummary v).testBit i = v.testBit i := by
  rw [updateFP_eq]
  rw [BFI32_testBit_of_ne _ _ _ _ hi30 hlt, BFI32_testBit_of_ne _ _ _ _ hi29 hlt]

theorem bfi30_and_anyE (f1 src : Nat) :
    (BFI32 f1 src 30 1) &&& FPSCR_ANY_E = f1 &&& FPSCR_ANY_E := by
  apply Nat.eq_of_testBit_eq
  intro i
  simp only [Nat.testBit_land]
  by_cases hE : Nat.testBit FPSCR_ANY_E i = true
  · have hi8 : i < 8 := by
      by_contra hge
      rw [anyE_testBit_hi i (by omega)] at hE
      exact Bool.false_ne_true hE
    have hsrc1 : ∀ s : Nat, BFI32 f1 s 30 1 = BFI32 f1 s 30 1 := fun _ => rfl
    rw [BFI32_testBit_of_ne _ _ _ _ (by omega) (by omega)]
  · rw [Bool.not_eq_true] at hE
    rw [hE]
    simp

theorem bfi30_shift22 (f1 src m : Nat) :
    (m &&& FPSCR_ANY_E) &&& ((BFI32 f1 src 30 1) >>> 22) =
      (m &&& FPSCR_ANY_E) &&& (f1 >>> 22) := by
  apply Nat.eq_of_testBit_eq
  intro i
  simp only [Nat.testBit_land, Nat.testBit_shiftRight]
  by_cases hE : Nat.testBit FPSCR_ANY_E i = true
  · have hi8 : i < 8 := by
      by_contra hge
      rw [anyE_testBit_hi i (by omega)] at hE
      exact Bool.false_ne_true hE
    rw [BFI32_testBit_of_ne _ _ _ _ (by omega) (by omega)]
  · rw [Bool.not_eq_true] at hE
    rw [hE]
    simp

theorem bfi30_fex (f1 : Nat) :
    (BFI32 f1 (if (f1 &&& FPSCR_ANY_E) &&& (f1 >>> 22) ≠ 0 then 1 else 0) 30 1).testBit 30 =
      decide (((BFI32 f1 (if (f1 &&& FPSCR_ANY_E) &&& (f1 >>> 22) ≠ 0 then 1 else 0) 30 1)
          &&& FPSCR_ANY_E) &&&
        ((BFI32 f1 (if (f1 &&& FPSCR_ANY_E) &&& (f1 >>> 22) ≠ 0 then 1 else 0) 30 1) >>> 22)
          ≠ 0) := by
  rw [BFI32_testBit_self _ _ _ (by norm_num), bfi30_and_anyE, bfi30_shift22]
  by_cases hc : (f1 &&& FPSCR_ANY_E) &&& (f1 >>> 22) ≠ 0
  · rw [if_pos hc, decide_eq_true hc]
    decide
  · rw [if_neg hc, decide_eq_false hc]
    decide

/-- C6: UpdateFPExceptionSummary sets VX (bit 29) to the OR-reduce of the
invalid-operation exception mask, sets FEX (bit 30) to the
enabled-and-signalled test of the updated word, and changes no other bit. -/
theorem C6_update_fp_summary (w : Nat) (hw : w < 2 ^ 32) :
    (∀ i, i ≠ 29 → i ≠ 30 → (UpdateFPExceptionSummary w).testBit i = w.testBit i) ∧
    (UpdateFPExceptionSummary w).testBit 29 = decide (FPSCR_VX_ANY &&& w ≠ 0) ∧
    (UpdateFPExceptionSummary w).testBit 30 =
      decide (((UpdateFPExceptionSummary w) &&& FPSCR_ANY_E) &&&
        ((UpdateFPExceptionSummary w) >>> 22) ≠ 0) := by
  refine ⟨?_, ?_, ?_⟩
  · intro i h29 h30
    by_cases hlt : i < 32
    · exact updateFP_frame w i h29 h30 hlt
    · rw [updateFP_eq, BFI32_testBit_hi _ _ _ _ (by norm_num) (by omega),
        Nat.testBit_eq_false_of_lt
          (lt_of_lt_of_le hw (Nat.pow_le_pow_right (by norm_num) (by omega)))]
  · rw [updateFP_eq, BFI32_testBit_of_ne _ _ _ _ (by omega) (by norm_num),
      BFI32_testBit_self _ _ _ (by norm_num)]
    by_cases hc : FPSCR_VX_ANY &&& w ≠ 0
    · rw [if_pos hc, decide_eq_true hc]
      decide
    · rw [if_neg hc, decide_eq_false hc]
      decide
  · rw [updateFP_eq]
    exact bfi30_fex _

/-- C6 witness: on the word with VXSNAN (bit 24) and VE (bit 7) set, the
update keeps bit 24, sets VX, and leaves bit 3 clear. -/
theorem C6_update_fp_summary_witness :
    (UpdateFPExceptionSummary (2 ^ 24 + 2 ^ 7)).testBit 24 = true ∧
    (UpdateFPExceptionSummary (2 ^ 24 + 2 ^ 7)).testBit 29 = true := by
  obtain ⟨hframe, h29, _⟩ := C6_update_fp_summary (2 ^ 24 + 2 ^ 7) (by norm_num)
  constructor
  · rw [hframe 24 (by omega) (by omega)]
    decide
  · rw [h29]
    decide


/-- C10: when mtfsb1x targets an FPSCR bit inside FPSCR_ANY_X, the result's FX
bit (bit 31) is the old FX bit OR-ed with the negation of the targeted bit's
previous value: it gets set exactly when the exception bit was previously
clear, and is otherwise left as it was. -/
theorem C10_mtfsb1_sets_fx (crbd w : Nat) (hw : w < 2 ^ 32)
    (hx : (0x80000000 >>> crbd) &&& FPSCR_ANY_X ≠ 0) :
    (mtfsb1x crbd w).testBit 31 = (w.testBit 31 || !(w.testBit (31 - crbd))) := by
  have hcrbd : crbd ≤ 31 := by
    by_contra h
    have h0 : (0x80000000 : Nat) >>> crbd = 0 := by
      rw [show (0x80000000 : Nat) = 2 ^ 31 by norm_num, Nat.shiftRight_eq_div_pow]
      exact Nat.div_eq_of_lt (Nat.pow_lt_pow_right (by norm_num) (by omega))
    rw [h0, Nat.zero_and] at hx
    exact hx rfl
  have hmask0 : (0x80000000 : Nat) >>> crbd = 2 ^ (31 - crbd) := by
    rw [show (0x80000000 : Nat) = 2 ^ 31 by norm_num, Nat.shiftRight_eq_div_pow,
      Nat.pow_div hcrbd (by norm_num)]
  rw [hmask0] at hx
  have hX : Nat.testBit FPSCR_ANY_X (31 - crbd) = true := by
    by_contra hXf
    rw [Bool.not_eq_true] at hXf
    apply hx
    apply Nat.eq_of_testBit_eq
    intro i
    rw [Nat.testBit_land, Nat.zero_testBit]
    by_cases hik : i = 31 - crbd
    · rw [hik, hXf]
      simp
    · rw [Nat.testBit_two_pow_of_ne (fun he => hik he.symm)]
      simp
  have hk28 : 31 - crbd ≤ 28 := by
    by_contra h
    have h29 : (29 : Nat) ≤ 31 - crbd := by omega
    rw [Nat.testBit_eq_false_of_lt
      (lt_of_lt_of_le (show FPSCR_ANY_X < 2 ^ 29 by norm_num [FPSCR_ANY_X])
        (Nat.pow_le_pow_right (by norm_num) h29))] at hX
    exact Bool.false_ne_true hX
  have hne : ¬(2 ^ (31 - crbd) = FPSCR_FEX ∨ 2 ^ (31 - crbd) = FPSCR_VX) := by
    rintro (h | h)
    · have hk := Nat.pow_right_injective (le_refl 2)
        (h.trans (show FPSCR_FEX = 2 ^ 30 from rfl))
      omega
    · have hk := Nat.pow_right_injective (le_refl 2)
        (h.trans (show FPSCR_VX = 2 ^ 29 from rfl))
      omega
  have hfin : 2 ^ (31 - crbd) &&& (FPSCR_ANY_X ||| FPSCR_ANY_E) ≠ 0 := by
    intro h0
    have h1 := congrArg (fun x => Nat.testBit x (31 - crbd)) h0
    simp only [Nat.testBit_land, Nat.testBit_lor, Nat.zero_testBit] at h1
    rw [Nat.testBit_two_pow, hX] at h1
    simp at h1
  have hsh : ((1 : Nat) <<< 31) = 2 ^ 31 := by
    rw [Nat.shiftLeft_eq]
    norm_num
  unfold mtfsb1x
  simp only []
  rw [hmask0, if_neg hne, if_pos hx, if_pos hfin,
    updateFP_frame _ 31 (by omega) (by omega) (by omega), Nat.testBit_lor,
    Nat.testBit_two_pow_of_ne (by omega)]
  by_cases hb : w.testBit (31 - crbd) = true
  · have hnz : w &&& 2 ^ (31 - crbd) ≠ 0 := by
      rw [Nat.and_two_pow, hb]
      simp
    rw [if_pos hnz, hb]
    simp
  · rw [Bool.not_eq_true] at hb
    have hz : ¬(w &&& 2 ^ (31 - crbd) ≠ 0) := by
      rw [Nat.and_two_pow, hb]
      simp
    rw [if_neg hz, hsh, Nat.testBit_lor, hb]
    simp
    exact Or.inr (by decide)

/-- C10 witness: setting FPSCR bit OX (crbd = 3, word bit 28, inside
FPSCR_ANY_X) on a zero word sets FX. -/
theorem C10_mtfsb1_sets_fx_witness :
    (0x80000000 >>> 3) &&& FPSCR_ANY_X ≠ 0 ∧
    (mtfsb1x 3 0).testBit 31 = true := by
  constructor
  · decide
  · rw [C10_mtfsb1_sets_fx 3 0 (by norm_num) (by decide)]
    decide


/-- C2: refuted — for tw with TO = 8 (the unsigned-less mask bit) and equal
operands 0 and 0, the emitted code takes the trap side-exit because the
branch for mask bit 3 tests the ARM overflow-clear condition (the source's
condition array is `{CC_LT, CC_GT, CC_EQ, CC_VC, CC_VS}`), which holds after
`CMP 0, 0`, while no TO-selected relation of the claimed five holds
(0 is not unsigned-less than 0). -/
theorem C2_trap_conditions_bug :
    twxTrapTaken 8 0 0 = true ∧ twxTrapSpec 8 0 0 = false ∧
    twxCondition 3 0 0 = true ∧ trapRelationSpec 3 0 0 = false :=
  ⟨by decide, by decide, by decide, by decide⟩

/-- C7: counterexample — the merge test of the timebase fusion also fires when
the following mftb reads the SAME half again (here both instructions read
SPR_TL), not only the paired other half as the claim states. -/
theorem C7_counterexample :
    tbMergeFires true 0 31 371 8 12 1 = true ∧
    tbMergeFiresSpec true SPR_TL 0 31 371 8 12 1 = false :=
  ⟨by decide, by decide⟩

/-- C7 (amended): the fusion fires exactly when the next instruction is a
mergeable mftb (OPCD 31, SUBOP10 371) of EITHER timebase half into a different
destination register; when it fires, both destinations receive their
respective halves of the single counter value and one following instruction is
suppressed, otherwise only the current destination is written and nothing is
skipped. -/
theorem C7_amended (canMerge : Bool) (iIndex d nOp nSub nSpru nSprl nRd counter : Nat)
    (hidx : iIndex = SPR_TL ∨ iIndex = SPR_TU) (hc : counter < 2 ^ 64) :
    (tbMergeFires canMerge d nOp nSub nSpru nSprl nRd = true ↔
      (canMerge = true ∧ nOp = 31 ∧ nSub = 371 ∧
        (sprIndex nSpru nSprl = SPR_TU ∨ sprIndex nSpru nSprl = SPR_TL) ∧ nRd ≠ d)) ∧
    (tbMergeFires canMerge d nOp nSub nSpru nSprl nRd = true →
      mfsprTBEmit iIndex d canMerge nOp nSub nSpru nSprl nRd counter =
        ([(d, tbHalf iIndex counter), (nRd, tbHalf (sprIndex nSpru nSprl) counter)], 1)) ∧
    (tbMergeFires canMerge d nOp nSub nSpru nSprl nRd = false →
      mfsprTBEmit iIndex d canMerge nOp nSub nSpru nSprl nRd counter =
        ([(d, tbHalf iIndex counter)], 0)) ∧
    tbHalf SPR_TL counter = counter % 2 ^ 32 ∧
    tbHalf SPR_TU counter = counter >>> 32 := by
  refine ⟨?_, ?_, ?_, ?_, ?_⟩
  · unfold tbMergeFires
    simp only [Bool.and_eq_true, Bool.or_eq_true, decide_eq_true_eq]
    tauto
  · intro h
    unfold mfsprTBEmit
    rw [if_pos h]
  · intro h
    unfold mfsprTBEmit
    rw [h]
    rw [if_neg (by simp)]
  · unfold tbHalf
    rw [if_pos (by trivial)]
  · unfold tbHalf
    rw [if_neg (by decide)]

/-- C7 amended witness: fusing an mftbl with a following mftbu of a sample
counter writes the low half to r0, the high half to r1, and skips one
instruction. -/
theorem C7_amended_witness :
    ((SPR_TL = SPR_TL ∨ SPR_TL = SPR_TU) ∧ (0x123456789 : Nat) < 2 ^ 64) ∧
    mfsprTBEmit SPR_TL 0 true 31 371 8 13 1 0x123456789 =
      ([(0, 0x23456789), (1, 0x1)], 1) := by
  constructor
  · exact ⟨Or.inl rfl, by norm_num⟩
  · have h := (C7_amended true SPR_TL 0 31 371 8 13 1 0x123456789 (Or.inl rfl)
      (by norm_num)).2.1 (by decide)
    rw [h]
    decide

end DolphinJit
